import Mathlib

/-!
Verification of the onbid case-snapshot pipeline (`KomaCore/onbid_parser.py`).

The Python source is shallowly embedded: every pure helper becomes an
executable Lean function over `String`/`List Char`, the orchestrator becomes a
function of an explicit environment (network responses, cache stores, the
injected allow-list of known real properties, a parse oracle for the
lxml/BeautifulSoup HTML walk, and the strict-mode flag), and the single
`try/except` boundary of `parse_onbid_case` becomes an `Except` wrapper.
Python string idioms (`in`, `replace`, `strip`, `lower`, `count`, truthiness)
and the handful of concrete regular expressions used by the parser are modelled
by dedicated scanners whose greedy/backtracking behaviour follows `re`
semantics for those exact patterns.

Numeric values that the source keeps as Python floats are modelled as `ℚ`;
every amount handled by the monetary/area parsers is an integer or short
decimal fraction, far below 2^53, where float arithmetic is exact.
-/

set_option maxRecDepth 100000
set_option maxHeartbeats 4000000

namespace Onbid

/-! ## Python string primitives -/

/-- `pat` occurs as a contiguous sublist of `l` (Python `pat in s`). -/
def isInfixCh : List Char → List Char → Bool
  | _, [] => true
  | [], _ :: _ => false
  | c :: cs, p => (List.isPrefixOf p (c :: cs)) || isInfixCh cs p

/-- Python `sub in s` (substring containment). -/
def pyContains (s sub : String) : Bool := isInfixCh s.data sub.data

theorem length_dropWhile_le (p : Char → Bool) (l : List Char) :
    (l.dropWhile p).length ≤ l.length := by
  induction l with
  | nil => simp [List.dropWhile]
  | cons c cs ih =>
    by_cases h : p c
    · simp [List.dropWhile, h]; omega
    · simp [List.dropWhile, h]

/-- Python `str.replace(old, new)`: replaces every non-overlapping occurrence,
left to right.  The source never calls it with an empty `old`. -/
def replaceCh (old new : List Char) : List Char → List Char
  | [] => []
  | c :: cs =>
    if old ≠ [] ∧ List.isPrefixOf old (c :: cs) then
      new ++ replaceCh old new (List.drop (old.length - 1) cs)
    else
      c :: replaceCh old new cs
termination_by l => l.length
decreasing_by
  · simp only [List.length_drop, List.length_cons]; omega
  · simp only [List.length_cons]; omega

/-- Python `s.replace(old, new)` on strings. -/
def pyReplace (s old new : String) : String := ⟨replaceCh old.data new.data s.data⟩

/-- Python `str.strip()` (no argument): remove leading and trailing whitespace. -/
def pyStrip (s : String) : String :=
  ⟨((s.data.dropWhile Char.isWhitespace).reverse.dropWhile Char.isWhitespace).reverse⟩

/-- Python `str.lower()`.  Only ASCII letters occur in the lowered comparisons
performed by the source (Korean text is unaffected by lowering). -/
def lowerStr (s : String) : String := ⟨s.data.map Char.toLower⟩

/-- Python `str.count(sub)`: number of non-overlapping occurrences. -/
def countSubCh (pat : List Char) : List Char → Nat
  | [] => 0
  | c :: cs =>
    if pat ≠ [] ∧ List.isPrefixOf pat (c :: cs) then
      1 + countSubCh pat (List.drop (pat.length - 1) cs)
    else
      countSubCh pat cs
termination_by l => l.length
decreasing_by
  · simp only [List.length_drop, List.length_cons]; omega
  · simp only [List.length_cons]; omega

/-- Python `s.count(sub)` on strings. -/
def countSub (s sub : String) : Nat := countSubCh sub.data s.data

/-- Python `str.startswith`. -/
def pyStartsWith (s pre : String) : Bool := List.isPrefixOf pre.data s.data

/-- Python `str.isdigit()` for the ASCII digit runs produced by the regexes of
the source: true iff nonempty and all characters are digits. -/
def pyIsDigit (s : String) : Bool := !s.data.isEmpty && s.data.all Char.isDigit

/-- Python truthiness of an `Optional[str]`: `None` and `""` are falsy. -/
def truthy : Option String → Bool
  | none => false
  | some s => !s.data.isEmpty

/-- Python `a or b` on two `Optional[str]` values. -/
def pyOrStr (a b : Option String) : Option String := if truthy a then a else b

/-- Python `opt or dflt` for an `Optional[str]` against a plain string. -/
def pyOrDefault (a : Option String) (dflt : String) : String :=
  if truthy a then a.getD dflt else dflt

/-! ## Digit and number scanning (shared by the regex models) -/

def digitVal (c : Char) : Nat := c.toNat - '0'.toNat

def natOfDigits (l : List Char) : Nat := l.foldl (fun n c => 10 * n + digitVal c) 0

/-- Split a maximal leading ASCII digit run (regex-greedy `\d*`). -/
def takeDigits (l : List Char) : List Char × List Char :=
  (l.takeWhile Char.isDigit, l.dropWhile Char.isDigit)

theorem takeDigits_snd_length (l : List Char) : (takeDigits l).2.length ≤ l.length :=
  length_dropWhile_le _ l

/-- Match `\d+(?:\.\d+)?` at the head of `l` with `re` greedy semantics:
maximal digit run, then an optional fraction whose digit run is also maximal.
Returns the rational value, the matched characters (`group(0)` of the number
part) and the rest.  When a `'.'` follows the integer part but no digit follows
the `'.'`, the optional group fails and backtracking leaves the `'.'`
unconsumed, exactly as `re` does. -/
def matchNumberAt (l : List Char) : Option (ℚ × List Char × List Char) :=
  let d := (takeDigits l).1
  let r := (takeDigits l).2
  if d.isEmpty then none
  else
    match r with
    | '.' :: r2 =>
      let f := (takeDigits r2).1
      let r3 := (takeDigits r2).2
      if f.isEmpty then some ((natOfDigits d : ℚ), d, r)
      else some ((natOfDigits d : ℚ) + (natOfDigits f : ℚ) / ((10 : ℚ) ^ f.length),
                 d ++ '.' :: f, r3)
    | _ => some ((natOfDigits d : ℚ), d, r)

/-- `re.search(r'(\d+(?:\.\d+)?)U', text)` for a literal unit `unit` (written as
a character list): leftmost match, returning the value of group 1 and the
characters of `group(0)`.  A failed match at one position moves the scan start
one character to the right, as `re.search` does. -/
def searchNumUnit (unit : List Char) : List Char → Option (ℚ × List Char)
  | [] => none
  | c :: cs =>
    match matchNumberAt (c :: cs) with
    | some (v, g, rest) =>
      if List.isPrefixOf unit rest then some (v, g ++ unit) else searchNumUnit unit cs
    | none => searchNumUnit unit cs

/-- Matcher for `(\d+(?:\.\d+)?)원?$` anchored at the head of `l`: the number,
then an optional `'원'`, must consume the whole remaining input. -/
def matchWonEndAt (l : List Char) : Option ℚ :=
  match matchNumberAt l with
  | none => none
  | some (v, _, rest) => if rest = [] ∨ rest = ['원'] then some v else none

/-- `re.search(r'(\d+(?:\.\d+)?)원?$', text)`: leftmost position whose match
reaches the end of the string. -/
def searchWonEnd : List Char → Option ℚ
  | [] => none
  | c :: cs =>
    match matchWonEndAt (c :: cs) with
    | some v => some v
    | none => searchWonEnd cs

/-! ## Monetary and area text parsers (`parse_monetary_value`, `_parse_area`) -/

/-- `re.sub(r'[,\s]', '', text)`: drop commas and whitespace. -/
def stripCommasSpaces (s : String) : String :=
  ⟨s.data.filter (fun c => !(c = ',' || c.isWhitespace))⟩

/-- `OnbidParser.parse_monetary_value`: sums the `억` (×100,000,000), `만`
(×10,000) and trailing bare-digit (`원`) contributions of a Korean price
string; `None` (here `none`) when the total stays zero.  The bare-digit
component is only added when neither `억` nor `만` matched, exactly as the
source's `won_match and not eok_match and not man_match` guard does; the
`remaining = text.replace(group, '')` steps of the source are reproduced even
though they only matter in that same case. -/
def parse_monetary_value (text : String) : Option ℚ :=
  if text = "" then none
  else
    let t := (stripCommasSpaces text).data
    let eok := searchNumUnit ['억'] t
    let man := searchNumUnit ['만'] t
    let total1 : ℚ := match eok with
      | some (v, _) => v * 100000000
      | none => 0
    let total2 : ℚ := total1 + (match man with
      | some (v, _) => v * 10000
      | none => 0)
    let remaining1 := match eok with
      | some (_, g) => replaceCh g [] t
      | none => t
    let remaining2 := match man with
      | some (_, g) => replaceCh g [] remaining1
      | none => remaining1
    let won := searchWonEnd remaining2
    let total3 : ℚ := match won, eok, man with
      | some v, none, none => total2 + v
      | _, _, _ => total2
    if total3 > 0 then some total3 else none

/-- `OnbidParser._parse_area`: leading numeric token (`[\d,]+\.?\d*`) directly
before an area unit (`㎡`, `m`+`²`, `평`), commas removed; `none` otherwise.
The regex takes a maximal run of digits/commas, an optional dot, then a maximal
digit run, and requires the unit after optional whitespace is NOT part of the
pattern — the unit class follows `\s*`. -/
def matchAreaAt (l : List Char) : Option (List Char × List Char) :=
  let d1 := l.takeWhile (fun c => c.isDigit || c = ',')
  let r1 := l.dropWhile (fun c => c.isDigit || c = ',')
  if d1.isEmpty then none
  else
    match r1 with
    | '.' :: r2 =>
      let f := (takeDigits r2).1
      let r3 := (takeDigits r2).2
      some (d1 ++ '.' :: f, r3)
    | _ => some (d1, r1)

/-- `re.search(r'([\d,]+\.?\d*)\s*[㎡m²평]', text)` followed by
`float(group.replace(',', ''))`; a `ValueError` from `float` is swallowed by
the source's `try/except ValueError: pass`, which continues as no-match. -/
def searchArea : List Char → Option (List Char)
  | [] => none
  | c :: cs =>
    match matchAreaAt (c :: cs) with
    | some (g, rest) =>
      if (rest.dropWhile Char.isWhitespace).head?.any
          (fun u => u = '㎡' || u = 'm' || u = '²' || u = '평') then some g
      else searchArea cs
    | none => searchArea cs

/-- Python `float(s)` restricted to strings made of digits and dots, the only
shape reaching it in this parser: defined iff there is at least one digit and
at most one dot. -/
def pyFloatOfDigitsDot (l : List Char) : Option ℚ :=
  if l.all (fun c => c.isDigit || c = '.') ∧ (l.filter (fun c => c = '.')).length ≤ 1
      ∧ l.any Char.isDigit then
    let d := l.takeWhile Char.isDigit
    let rest := l.dropWhile Char.isDigit
    let f := rest.drop 1
    some ((natOfDigits d : ℚ) + (natOfDigits f : ℚ) / ((10 : ℚ) ^ f.length))
  else none

/-- `OnbidParser._parse_area`. -/
def parseArea (text : String) : Option ℚ :=
  if text = "" then none
  else
    match searchArea text.data with
    | some g => pyFloatOfDigitsDot (g.filter (fun c => !(c = ',')))
    | none => none

/-! Auxiliary lemmas: a string without digits defeats every number scanner. -/

theorem matchNumberAt_eq_none (l : List Char) (h : ∀ c ∈ l, ¬ c.isDigit = true) :
    matchNumberAt l = none := by
  unfold matchNumberAt
  cases l with
  | nil => simp [takeDigits]
  | cons c cs =>
    have hc : ¬ c.isDigit = true := h c (List.mem_cons_self c cs)
    simp [takeDigits, List.takeWhile, Bool.not_eq_true] at *
    simp [List.takeWhile_cons, hc]

theorem searchNumUnit_eq_none (u : List Char) (l : List Char)
    (h : ∀ c ∈ l, ¬ c.isDigit = true) : searchNumUnit u l = none := by
  induction l with
  | nil => rfl
  | cons c cs ih =>
    have h1 : ∀ x ∈ c :: cs, ¬ x.isDigit = true := h
    have h2 : ∀ x ∈ cs, ¬ x.isDigit = true := fun x hx => h x (List.mem_cons_of_mem c hx)
    unfold searchNumUnit
    rw [matchNumberAt_eq_none _ h1]
    exact ih h2

theorem searchWonEnd_eq_none (l : List Char) (h : ∀ c ∈ l, ¬ c.isDigit = true) :
    searchWonEnd l = none := by
  induction l with
  | nil => rfl
  | cons c cs ih =>
    have h2 : ∀ x ∈ cs, ¬ x.isDigit = true := fun x hx => h x (List.mem_cons_of_mem c hx)
    unfold searchWonEnd
    unfold matchWonEndAt
    rw [matchNumberAt_eq_none _ h]
    exact ih h2

theorem parse_monetary_value_none_of_no_digit (text : String)
    (h : ∀ c ∈ text.data, ¬ c.isDigit = true) : parse_monetary_value text = none := by
  unfold parse_monetary_value
  by_cases he : text = ""
  · simp [he]
  · have ht : ∀ c ∈ (stripCommasSpaces text).data, ¬ c.isDigit = true := by
      intro c hc
      exact h c (List.mem_filter.mp hc).1
    rw [if_neg he]
    simp only [searchNumUnit_eq_none _ _ ht, searchWonEnd_eq_none _ ht]
    norm_num

/-! ## Rate-limited fetcher (`_detect_captcha_or_block`, `fetch_content`)

Rate limiting, jitter and per-attempt timeouts are wall-clock behaviour and are
not part of the value-level model; what is modelled is the outcome of each
attempt.  An attempt either yields an HTTP response (body text and status
code), raises `requests.exceptions.Timeout`, or raises another
`RequestException`. -/

inductive Attempt where
  | response (text : String) (status : Nat)
  | timeoutExc
  | requestExc
  deriving DecidableEq

def Attempt.isExc : Attempt → Bool
  | .response _ _ => false
  | _ => true

/-- Outcome triple of `fetch_content`: `(content, http_status, error_code)`. -/
structure FetchResult where
  content : Option String
  http_status : Option Nat
  error_code : Option String
  deriving DecidableEq

/-- The CAPTCHA/WAF indicator substrings of `_detect_captcha_or_block`. -/
def captcha_indicators : List String :=
  ["captcha", "recaptcha", "cloudflare", "보안문자", "자동차단", "access denied",
   "please verify", "security check"]

/-- `content.lower()` contains one of the indicators. -/
def captchaFlagged (content : String) : Bool :=
  captcha_indicators.any (fun ind => pyContains (lowerStr content) ind)

/-- `OnbidParser._detect_captcha_or_block`: a 403 status is reported first;
otherwise a truthy body containing an indicator yields `CAPTCHA_DETECTED`. -/
def detect_captcha_or_block (content : String) (status : Nat) : Option String :=
  if status = 403 then some "REMOTE_HTTP_403"
  else if truthy (some content) && captchaFlagged content then some "CAPTCHA_DETECTED"
  else none

/-- `"REMOTE_HTTP_" + str(status)`. -/
def remoteHttpCode (status : Nat) : String := "REMOTE_HTTP_" ++ toString status

/-- Processing of one received HTTP response inside `fetch_content`'s loop
(lines 252-266 of the source): blocking detection first, then the status
dispatch. -/
def processHttpResponse (text : String) (status : Nat) : FetchResult :=
  match detect_captcha_or_block text status with
  | some block => ⟨none, some status, some block⟩
  | none =>
    if status = 200 then ⟨some text, some 200, none⟩
    else if status = 404 then ⟨none, some 404, some "REMOTE_HTTP_404"⟩
    else if status ≥ 500 then ⟨none, some status, some "REMOTE_HTTP_500"⟩
    else ⟨none, some status, some (remoteHttpCode status)⟩

/-- The `for attempt in range(retries + 1)` loop of `fetch_content`: a response
returns immediately; an exception returns on the last attempt and otherwise
retries.  `fuel` counts the remaining loop iterations (`retries + 1 - i`); the
fuel-exhausted case is the unreachable `return UNKNOWN` after the loop. -/
def fetchAttempts (att : Nat → Attempt) (retries : Nat) : Nat → Nat → FetchResult
  | _, 0 => ⟨none, none, some "UNKNOWN"⟩
  | i, fuel + 1 =>
    match att i with
    | .response text status => processHttpResponse text status
    | .timeoutExc =>
      if i = retries then ⟨none, none, some "TIMEOUT"⟩
      else fetchAttempts att retries (i + 1) fuel
    | .requestExc =>
      if i = retries then ⟨none, none, some "UNKNOWN"⟩
      else fetchAttempts att retries (i + 1) fuel

/-- `OnbidParser.fetch_content` with its default `retries = 2` (three total
attempts), as a function of the attempt outcomes. -/
def fetch_content (att : Nat → Attempt) : FetchResult :=
  fetchAttempts att 2 0 3

/-! ## Content validator (`_is_onbid_error_page`, `_is_detail_page`) -/

def error_indicators : List String :=
  ["요청하신 페이지를 찾을 수 없거나", "시스템에 다른 문제가 발생했습니다",
   "이전페이지에서 다시 시도해 보시기 바랍니다", "이용에 불편을 드려 죄송합니다",
   "Error 404", "페이지를 찾을 수 없습니다", "통합검색 결과는 0", "검색 결과는 0",
   "결과는 0건", "검색결과가 없습니다"]

def required_fields_strict : List String := ["사건번호", "용도", "소재지", "감정가", "최저입찰가"]

def auction_keywords : List String := ["감정가", "최저입찰가", "매각", "입찰마감", "공고번호"]

def price_keywords : List String := ["만원", "억원", "원", "₩"]

/-- `sum(1 for k in fields if k in content)`. -/
def countPresent (fields : List String) (content : String) : Nat :=
  (fields.filter (fun f => pyContains content f)).length

/-- Matcher for `\d+억\s*\d*만원` at the head of `l`: digits, `억`, a maximal
whitespace run, a maximal (possibly empty) digit run, then the literal `만원`. -/
def matchPriceEokAt (l : List Char) : Bool :=
  let d := (takeDigits l).1
  let r := (takeDigits l).2
  if d.isEmpty then false
  else
    match r with
    | '억' :: r2 =>
      let r3 := r2.dropWhile Char.isWhitespace
      let r4 := (takeDigits r3).2
      List.isPrefixOf ['만', '원'] r4
    | _ => false

/-- Matcher for `\d+,\d+,\d+원` at the head of `l`. -/
def matchPriceCommaAt (l : List Char) : Bool :=
  let d1 := (takeDigits l).1
  let r1 := (takeDigits l).2
  if d1.isEmpty then false
  else
    match r1 with
    | ',' :: r2 =>
      let d2 := (takeDigits r2).1
      let r3 := (takeDigits r2).2
      if d2.isEmpty then false
      else
        match r3 with
        | ',' :: r4 =>
          let d3 := (takeDigits r4).1
          let r5 := (takeDigits r4).2
          if d3.isEmpty then false else List.isPrefixOf ['원'] r5
        | _ => false
    | _ => false

/-- Matcher for `\d+만원` at the head of `l`. -/
def matchPriceManAt (l : List Char) : Bool :=
  let d := (takeDigits l).1
  let r := (takeDigits l).2
  if d.isEmpty then false else List.isPrefixOf ['만', '원'] r

/-- `re.search` existence for one of the positional matchers above. -/
def existsMatch (m : List Char → Bool) : List Char → Bool
  | [] => false
  | c :: cs => m (c :: cs) || existsMatch m cs

/-- `sum(1 for pattern in price_patterns if re.search(pattern, content))`. -/
def foundPriceCount (content : String) : Nat :=
  (([matchPriceEokAt, matchPriceCommaAt, matchPriceManAt].filter
      (fun m => existsMatch m content.data))).length

/-- `OnbidParser._is_onbid_error_page` as a function of the strict-mode flag
and the document: known error phrases first, then the strict (3-of-5 labels,
price shapes, 10,000-character minimum) or relaxed (2 auction keywords / 2
price keywords) content checks, then the login/navigation heuristic. -/
def is_onbid_error_page (strict : Bool) (content : String) : Bool :=
  if error_indicators.any (fun ind => pyContains (lowerStr content) (lowerStr ind)) then true
  else if strict && decide (countPresent required_fields_strict content < 3) then true
  else if strict && decide (foundPriceCount content = 0) then true
  else if strict && decide (content.length < 10000) then true
  else if !strict && (decide (countPresent auction_keywords content < 2) &&
      decide (countPresent price_keywords content < 2)) then true
  else if decide (countSub content "로그인" > countSub content "매각") &&
      !(pyContains content "입찰") then true
  else false

/-- The optional separator class `[=:'"]` of the `cltrNo` patterns, as the five
literal alternatives of `cltrNo[=:'"]?<id>`. -/
def cltrSeps : List String := ["", "=", ":", "'", "\""]

/-- `re.search(rf'cltrNo[=:\'""]?{id}', content, re.IGNORECASE)` for a literal
id: the lowered content contains `cltrno`, an optional separator, then the id. -/
def containsCltrRef (content : String) (id : String) : Bool :=
  cltrSeps.any (fun sep => pyContains (lowerStr content) ("cltrno" ++ sep ++ lowerStr id))

/-- `OnbidParser._is_detail_page`.  `if expected_cltr_no:` is Python
truthiness, so an empty expected id skips the id check. -/
def is_detail_page (content : String) (expected_cltr_no : Option String) : Bool :=
  if content = "" then false
  else if countPresent ["감정가", "최저입찰가", "차수"] content < 2 then false
  else
    match expected_cltr_no with
    | some cltr => if cltr = "" then true else containsCltrRef content cltr
    | none => true

/-! ## Cache store (`save_case_data`, `check_cache_exists`)

A raw-archive entry on disk is modelled as `Option (Option RawData)`: `none`
when no `raw_data.json` exists for the case key, `some none` when the file
exists but cannot be deserialized (`json.JSONDecodeError`), and
`some (some d)` when it parses.  The boolean fields of `RawData` are the
truthiness of the corresponding JSON keys, with an absent key readable as
`false` (the source reads them with `.get("strict_mode", False)` and a
`.get("mock_blocked") != True` comparison, so absent ≡ `false` for both). -/

structure RawData where
  /-- Opaque payload: url, case_no, content, extracted_data, attachment_state,
  status and the bookkeeping metadata added at save time. -/
  payload : String
  strict_mode : Bool := false
  mock_blocked : Bool := false
  deriving DecidableEq

/-- `OnbidParser.save_case_data`: the entry written for a payload under the
given execution mode.  Under strict mode the `strict_mode` and `mock_blocked`
markers are set; otherwise the payload is written as-is (no markers, i.e. they
read back as `false`). -/
def save_case_data (strict : Bool) (raw : RawData) : RawData :=
  if strict then { raw with strict_mode := true, mock_blocked := true } else raw

/-- `OnbidParser.check_cache_exists`: file-existence first; under strict mode
the entry must deserialize and carry both provenance markers; deserialization
failure is treated as a miss. -/
def check_cache_exists (strict : Bool) (entry : Option (Option RawData)) : Bool :=
  match entry with
  | none => false
  | some none => if strict then false else true
  | some (some d) =>
    if strict then
      if !d.strict_mode then false
      else if !d.mock_blocked then false
      else true
    else true

/-! ## Mismatch detector (`normalize_case_for_comparison`, `detect_mismatch`) -/

/-- `OnbidParser.normalize_case_for_comparison`: drop every `case:`/`onbid:`
occurrence, then strip surrounding whitespace. -/
def normalize_case_for_comparison (case_str : String) : String :=
  if case_str = "" then ""
  else pyStrip (pyReplace (pyReplace case_str "case:" "") "onbid:" "")

/-- `OnbidParser.detect_mismatch`.  When both extracted identifiers are truthy
the request is compared against each (the internal id through its
`onbid:<id>` form); otherwise the comparison falls back to the case key, with
the single available extracted identifier still accepted. -/
def detect_mismatch (requested_case : String) (case_no_extracted cltr_no_extracted : Option String)
    (case_key : String) : Bool :=
  let nreq := normalize_case_for_comparison requested_case
  if truthy case_no_extracted && truthy cltr_no_extracted then
    if nreq = normalize_case_for_comparison (case_no_extracted.getD "") then false
    else if nreq = normalize_case_for_comparison ("onbid:" ++ cltr_no_extracted.getD "") then false
    else true
  else
    let nkey := normalize_case_for_comparison case_key
    if nreq ≠ nkey then
      if truthy case_no_extracted &&
          decide (nreq = normalize_case_for_comparison (case_no_extracted.getD "")) then false
      else if truthy cltr_no_extracted && decide (nreq = cltr_no_extracted.getD "") then false
      else true
    else false

/-! ## Scanners for the remaining concrete regexes of the source -/

/-- After a literal, match `[SEPS]?(\d+)` with `re` semantics: the optional
separator is consumed greedily when present (backtracking cannot help, because
the separator characters are not digits); the digit run is maximal and must be
nonempty.  Returns the digit group and the rest after the match. -/
def afterOptSepDigits (seps : List Char) (l : List Char) : Option (List Char × List Char) :=
  match l with
  | [] => none
  | c :: cs =>
    if seps.contains c then
      let d := (takeDigits cs).1
      if d.isEmpty then none else some (d, (takeDigits cs).2)
    else
      let d := (takeDigits l).1
      if d.isEmpty then none else some (d, (takeDigits l).2)

theorem afterOptSepDigits_length (seps : List Char) (l d r : List Char)
    (h : afterOptSepDigits seps l = some (d, r)) : r.length ≤ l.length := by
  cases l with
  | nil => simp [afterOptSepDigits] at h
  | cons c cs =>
    unfold afterOptSepDigits at h
    by_cases hc : seps.contains c
    · simp only [hc, if_true] at h
      split at h
      · exact absurd h (by simp)
      · injection h with h1
        injection h1 with h2 h3
        subst h3
        have := length_dropWhile_le Char.isDigit cs
        simp only [takeDigits, List.length_cons]
        omega
    · simp only [hc, if_false, Bool.false_eq_true] at h
      split at h
      · exact absurd h (by simp)
      · injection h with h1
        injection h1 with h2 h3
        subst h3
        exact length_dropWhile_le Char.isDigit (c :: cs)

/-- One `re.findall` pass for `LIT[SEPS]?(\d+)` (patterns 1 and 4 of
`_extract_cltr_no_from_search`): leftmost, non-overlapping matches, the scan
resuming after each full match.  The literal is passed with its head split off
so it is statically nonempty. -/
def findallLitSepDigits (l0 : Char) (lrest : List Char) (seps : List Char) :
    List Char → List (List Char)
  | [] => []
  | c :: cs =>
    if List.isPrefixOf (l0 :: lrest) (c :: cs) then
      match h : afterOptSepDigits seps (List.drop lrest.length cs) with
      | some (d, r) => d :: findallLitSepDigits l0 lrest seps r
      | none => findallLitSepDigits l0 lrest seps cs
    else findallLitSepDigits l0 lrest seps cs
termination_by l => l.length
decreasing_by
  · have h1 := afterOptSepDigits_length seps _ _ _ h
    have h2 : (List.drop lrest.length cs).length ≤ cs.length := by
      simp only [List.length_drop]; omega
    simp only [List.length_cons]; omega
  · simp only [List.length_cons]; omega
  · simp only [List.length_cons]; omega

/-- The lazy gap of `.*?` followed by `LIT2[SEPS]?(\d+)`: expand the gap one
non-newline character at a time (`.` does not match a newline) and stop at the
first position where the tail pattern matches.  An inner failure at a matching
`LIT2` position keeps expanding, as `re` backtracking does. -/
def gapScanSepDigits (seps : List Char) (b0 : Char) (bs : List Char) :
    List Char → Option (List Char × List Char)
  | [] => none
  | c :: cs =>
    match (if List.isPrefixOf (b0 :: bs) (c :: cs) then
             afterOptSepDigits seps (List.drop bs.length cs)
           else none) with
    | some x => some x
    | none => if c = '\n' then none else gapScanSepDigits seps b0 bs cs

theorem gapScanSepDigits_length (seps : List Char) (b0 : Char) (bs l d r : List Char)
    (h : gapScanSepDigits seps b0 bs l = some (d, r)) : r.length ≤ l.length := by
  induction l with
  | nil => simp [gapScanSepDigits] at h
  | cons c cs ih =>
    rcases hi : (if List.isPrefixOf (b0 :: bs) (c :: cs) then
                   afterOptSepDigits seps (List.drop bs.length cs)
                 else none) with _ | x
    · rw [gapScanSepDigits, hi] at h
      simp only at h
      split at h
      · exact absurd h (by simp)
      · have := ih h
        simp only [List.length_cons]; omega
    · rw [gapScanSepDigits, hi] at h
      simp only [Option.some.injEq] at h
      subst h
      split at hi
      · have ha := afterOptSepDigits_length seps _ _ _ hi
        have hd : (List.drop bs.length cs).length ≤ cs.length := by
          simp only [List.length_drop]; omega
        simp only [List.length_cons]; omega
      · exact absurd hi (by simp)

/-- Tail of patterns 2 and 3 of `_extract_cltr_no_from_search` after the
leading literal: for pattern 2 one required quote-class character, then the
lazy gap and `cltrNo[SEPS]?(\d+)`. -/
def gapTail (arest : List Char) (classAfter : Option (List Char)) (b0 : Char)
    (bs seps : List Char) (cs : List Char) : Option (List Char × List Char) :=
  match classAfter with
  | some cls =>
    match List.drop arest.length cs with
    | q :: rest => if cls.contains q then gapScanSepDigits seps b0 bs rest else none
    | [] => none
  | none => gapScanSepDigits seps b0 bs (List.drop arest.length cs)

theorem gapTail_length (arest : List Char) (classAfter : Option (List Char)) (b0 : Char)
    (bs seps : List Char) (cs d r : List Char)
    (h : gapTail arest classAfter b0 bs seps cs = some (d, r)) : r.length ≤ cs.length := by
  have hd : (List.drop arest.length cs).length ≤ cs.length := by
    simp only [List.length_drop]; omega
  unfold gapTail at h
  rcases classAfter with _ | cls
  · have := gapScanSepDigits_length seps b0 bs _ _ _ h
    omega
  · simp only at h
    rcases hq : List.drop arest.length cs with _ | ⟨q, rest⟩
    · rw [hq] at h; exact absurd h (by simp)
    · rw [hq] at h
      simp only at h
      by_cases hc : cls.contains q = true
      · rw [if_pos hc] at h
        have h1 := gapScanSepDigits_length seps b0 bs _ _ _ h
        have h2 : rest.length + 1 = (List.drop arest.length cs).length := by rw [hq]; simp
        omega
      · rw [if_neg hc] at h
        exact absurd h (by simp)

/-- One `re.findall` pass for `LIT1<classAfter?>.*?LIT2[SEPS]?(\d+)` (patterns
2 and 3 of `_extract_cltr_no_from_search`): leftmost matches, restarting one
character later on failure and after the match end on success. -/
def findallGapPattern (a0 : Char) (arest : List Char) (classAfter : Option (List Char))
    (b0 : Char) (bs : List Char) (seps : List Char) : List Char → List (List Char)
  | [] => []
  | c :: cs =>
    if List.isPrefixOf (a0 :: arest) (c :: cs) then
      match h : gapTail arest classAfter b0 bs seps cs with
      | some (d, r) => d :: findallGapPattern a0 arest classAfter b0 bs seps r
      | none => findallGapPattern a0 arest classAfter b0 bs seps cs
    else findallGapPattern a0 arest classAfter b0 bs seps cs
termination_by l => l.length
decreasing_by
  · have h1 := gapTail_length arest classAfter b0 bs seps _ _ _ h
    simp only [List.length_cons]; omega
  · simp only [List.length_cons]; omega
  · simp only [List.length_cons]; omega

/-- `re.search(r'LIT(\d+)', text)`: leftmost literal followed by a nonempty
maximal digit run; returns the digit group. -/
def searchLitDigits (lit : List Char) : List Char → Option (List Char)
  | [] => none
  | c :: cs =>
    if List.isPrefixOf lit (c :: cs) then
      let d := (takeDigits (List.drop lit.length (c :: cs))).1
      if d.isEmpty then searchLitDigits lit cs else some d
    else searchLitDigits lit cs

/-- `re.search(r'(\d+)LIT', text)`: leftmost nonempty digit run followed by
the literal; the run is maximal (a shorter run would be followed by a digit,
which cannot start the literals used by the source). -/
def searchDigitsLit (lit : List Char) : List Char → Option (List Char)
  | [] => none
  | c :: cs =>
    if !(takeDigits (c :: cs)).1.isEmpty && List.isPrefixOf lit (takeDigits (c :: cs)).2 then
      some (takeDigits (c :: cs)).1
    else searchDigitsLit lit cs

/-- First match of `LIT[SEPS]?(\d+)` (the case-sensitive
`cltrNo[=:\'"]?(\d+)` search of step 9 of the orchestrator). -/
def searchLitSepDigits (lit : List Char) (seps : List Char) : List Char → Option (List Char)
  | [] => none
  | c :: cs =>
    if List.isPrefixOf lit (c :: cs) then
      match afterOptSepDigits seps (List.drop lit.length (c :: cs)) with
      | some (d, _) => some d
      | none => searchLitSepDigits lit seps cs
    else searchLitSepDigits lit seps cs

/-- `re.search(r'keyword=([^&"\']+)', content)`: leftmost `keyword=` followed
by a nonempty maximal run of characters outside `&`, `"`, `'` (newlines are
allowed by that class). -/
def searchKeywordParam : List Char → Option (List Char)
  | [] => none
  | c :: cs =>
    if List.isPrefixOf ("keyword=".data) (c :: cs) then
      let g := (List.drop 8 (c :: cs)).takeWhile (fun x => !(x = '&' || x = '"' || x = '\''))
      if g.isEmpty then searchKeywordParam cs else some g
    else searchKeywordParam cs

/-- The exact shape `\d{4}-\d{5}-\d{3}` spanning the whole list. -/
def isCaseCore (l : List Char) : Bool :=
  let d1 := (takeDigits l).1
  let r1 := (takeDigits l).2
  d1.length = 4 &&
    match r1 with
    | '-' :: r2 =>
      let d2 := (takeDigits r2).1
      let r3 := (takeDigits r2).2
      d2.length = 5 &&
        match r3 with
        | '-' :: r4 => (takeDigits r4).1.length = 3 && (takeDigits r4).2.isEmpty
        | _ => false
    | _ => false

/-- `re.match(r"^\d{4}-\d{5}-\d{3}$", s)` (also `re.search`, since the pattern
is `^`-anchored): Python's `$` also matches just before one final newline;
returns `group(0)`, which never includes that newline. -/
def reMatchCasePattern (s : String) : Option String :=
  if isCaseCore s.data then some s
  else if s.data.getLast? = some '\n' && isCaseCore s.data.dropLast then some ⟨s.data.dropLast⟩
  else none

/-- Existence of `A.*?B` in `l` starting right after a given position: scan
for `B`, stopping at a newline (the lazy dot does not match newlines). -/
def gapFind (b : List Char) : List Char → Bool
  | [] => false
  | c :: cs => if List.isPrefixOf b (c :: cs) then true else if c = '\n' then false else gapFind b cs

/-- `re.search(r'A.*?B', text)` existence: some occurrence of `A` followed,
with no intervening newline, by an occurrence of `B`. -/
def searchGapPair (a b : List Char) : List Char → Bool
  | [] => false
  | c :: cs =>
    (List.isPrefixOf a (c :: cs) && gapFind b (List.drop a.length (c :: cs))) || searchGapPair a b cs

/-- `re.search(r'A\s*(B1|B2|...)', text)` existence: an occurrence of `A`, a
maximal whitespace run, then one of the alternatives (none of which starts
with whitespace, so backtracking the star cannot help). -/
def searchWsThen (a : List Char) (alts : List (List Char)) : List Char → Bool
  | [] => false
  | c :: cs =>
    (List.isPrefixOf a (c :: cs) &&
      alts.any (fun b =>
        List.isPrefixOf b ((List.drop a.length (c :: cs)).dropWhile Char.isWhitespace)))
    || searchWsThen a alts cs

/-- Match of `[:\s]*([^EXCL]+)` at the position right after a label, with `re`
backtracking: the class run is maximal; if the character after it is excluded
(or the input ends), the star gives characters back one at a time, so the
group becomes the last class character not itself excluded; if none exists the
match fails at this position. -/
def matchLabelValueAt (excl : List Char) (l : List Char) : Option (List Char) :=
  let k := l.takeWhile (fun c => c = ':' || c.isWhitespace)
  let rest := l.dropWhile (fun c => c = ':' || c.isWhitespace)
  match rest with
  | c :: _ =>
    if !excl.contains c then some (rest.takeWhile (fun x => !excl.contains x))
    else
      match k.reverse.dropWhile (fun x => excl.contains x) with
      | c0 :: _ => some [c0]
      | [] => none
  | [] =>
    match k.reverse.dropWhile (fun x => excl.contains x) with
    | c0 :: _ => some [c0]
    | [] => none

/-- `re.search(r'LABEL[:\s]*([^EXCL]+)', text)`: leftmost label occurrence
whose value part matches; on failure the scan moves on to the next
occurrence. -/
def searchLabelValue (label : List Char) (excl : List Char) : List Char → Option (List Char)
  | [] => none
  | c :: cs =>
    if List.isPrefixOf label (c :: cs) then
      match matchLabelValueAt excl (List.drop label.length (c :: cs)) with
      | some g => some g
      | none => searchLabelValue label excl cs
    else searchLabelValue label excl cs

/-- `re.search(r'LABEL[:\s]*([0-9,\.]+)', text)`: after the label and a
maximal `[:\s]` run, a nonempty maximal run of digits, commas and dots (the
class characters of `[:\s]` are outside `[0-9,\.]`, so no backtracking
applies). -/
def searchLabelNumRun (label : List Char) : List Char → Option (List Char)
  | [] => none
  | c :: cs =>
    if List.isPrefixOf label (c :: cs) then
      let rest := (List.drop label.length (c :: cs)).dropWhile (fun x => x = ':' || x.isWhitespace)
      let g := rest.takeWhile (fun x => x.isDigit || x = ',' || x = '.')
      if g.isEmpty then searchLabelNumRun label cs else some g
    else searchLabelNumRun label cs

/-! ## Data model (`models.py`)

Field names follow the source; the Korean flag names of `OnbidFlags` are
transliterated because Lean identifiers cannot contain Hangul:
`jibun` = 지분 (share sale), `daejigwon_eopseum` = 대지권없음 (no land right),
`geonmulman` = 건물만 (building only), `bugase` = 부가세 (VAT),
`teugyak` = 특약 (special terms). -/

structure OnbidFlags where
  jibun : Bool := false
  daejigwon_eopseum : Bool := false
  geonmulman : Bool := false
  bugase : Bool := false
  teugyak : Bool := false
  deriving DecidableEq

structure OnbidAreas where
  building_m2 : Option ℚ := none
  land_m2 : Option ℚ := none
  land_right : Option Bool := none
  deriving DecidableEq

structure OnbidPayDue where
  base_days : Nat := 30
  grace_days : Nat := 10
  deriving DecidableEq

structure OnbidAttachment where
  name : String
  saved : String
  deriving DecidableEq

structure OnbidDebugInfo where
  source : String
  http_status : Option Nat := none
  last_url : Option String := none
  deriving DecidableEq

structure OnbidParseRequest where
  case : Option String := none
  url : Option String := none
  force : Bool := false
  deriving DecidableEq

structure OnbidParseResponse where
  status : String
  requested_case : Option String := none
  case_key : Option String := none
  case_no : Option String := none
  source_hint : Option String := none
  mismatch : Bool := false
  asset_type : Option String := none
  use_type : Option String := none
  address : Option String := none
  areas : OnbidAreas
  appraisal : Option ℚ := none
  min_bid : Option ℚ := none
  round : Option Nat := none
  duty_deadline : Option String := none
  pay_due : OnbidPayDue
  flags : OnbidFlags
  attachments : List OnbidAttachment := []
  attachment_state : String
  notes : Option String := none
  extracted_keys : Nat
  error_code : Option String := none
  error_hint : Option String := none
  debug : OnbidDebugInfo
  req_id : String
  deriving DecidableEq

/-- Intermediate `areas` dict built by `extract_structured_data` /
`_extract_mock_data`; a key absent from the dict is `none`.  `has_shares` is
set only by the HTML branch and is dropped by the `OnbidAreas(**areas)`
construction (pydantic ignores unknown keys), but never counted. -/
structure AreasMap where
  land_m2 : Option ℚ := none
  building_m2 : Option ℚ := none
  land_right : Option Bool := none
  has_shares : Option Bool := none
  deriving DecidableEq

/-- The dict returned by `extract_structured_data`, restricted to the keys its
consumers (`count_extracted_keys` and the response construction) read.  A key
that is absent and a key set to `None` are indistinguishable to those
consumers, so both are `none`.  `areas := none` models the `areas` key being
absent (`data.get("areas", {})`). -/
structure ExtractedData where
  asset_type : Option String := none
  use_type : Option String := none
  address : Option String := none
  appraisal : Option ℚ := none
  min_bid : Option ℚ := none
  round : Option Nat := none
  duty_deadline : Option String := none
  areas : Option AreasMap := none
  deriving DecidableEq

/-- Abstract result of `parse_real_content` (the lxml/BeautifulSoup HTML walk,
which is outside the scope of a string-level embedding and is supplied as an
oracle in the environment).  A key the walk did not set is `none`. -/
structure ParsedRealContent where
  case_no : Option String := none
  asset_group : Option String := none
  asset_type : Option String := none
  use_type : Option String := none
  address : Option String := none
  appraisal_price : Option ℚ := none
  min_bid_price : Option ℚ := none
  round : Option Nat := none
  area_land : Option ℚ := none
  area_building : Option ℚ := none
  deadline_paydays : Option String := none
  deriving DecidableEq

/-- One entry of the `real_properties` allow-list in
`_extract_real_property_data`. -/
structure RealProp where
  type : String
  location : String
  price : Nat
  appraisal : Nat
  land_area : String
  building_area : String
  has_shares : Bool
  land_rights : Bool
  deriving DecidableEq

/-- The hard-coded allow-list of `_extract_real_property_data`, keyed by plain
case number. -/
def real_properties : String → Option RealProp := fun case_no =>
  if case_no = "2024-01774-006" then
    some ⟨"아파트", "경기도 용인시 기흥구 중동 1101 어정마을롯데캐슬에코2단지 제207동 제8층 제802호",
          288000000, 288000000, "25.69㎡", "67.49㎡", true, true⟩
  else if case_no = "2024-05180-001" then
    some ⟨"오피스텔", "경기도 용인시 수지구 상현동 1117-5",
          153000000, 153000000, "25.69㎡", "67.49㎡", false, true⟩
  else if case_no = "2024-06499-010" then
    some ⟨"아파트", "경기도 부천시 오정구 내동 348 신영아파트 제1동 제2층 제207호",
          229000000, 229000000, "22.84㎡", "45.92㎡", false, true⟩
  else none

/-- `OnbidParser._extract_real_property_data`, over an injected lookup table
(the design treats the allow-list as injected configuration; `real_properties`
is the source's concrete table). -/
def _extract_real_property_data (lookup : String → Option RealProp) (case_key : String) :
    Option RealProp :=
  let case_no := if case_key = "" then ""
    else pyReplace (pyReplace case_key "case:" "") "onbid:" ""
  lookup case_no

/-! ## Flag detector and attachment handler -/

/-- `OnbidParser.detect_flags`: the five independent `FLAG_PATTERNS` regexes,
all applied with `re.IGNORECASE` (which only affects the `VAT` alternative;
the content is compared lowered against lowered literals, equivalent for
these patterns). -/
def detect_flags (content : String) : OnbidFlags :=
  let l := (lowerStr content).data
  { jibun := isInfixCh l "공유지분".data || searchWsThen "지분".data ["매각".data] l ||
      searchWsThen "공유".data ["매각".data] l
    daejigwon_eopseum := searchWsThen "대지권".data ["미등기".data, "없음".data] l
    geonmulman := searchWsThen "건물만".data ["매각".data] l ||
      searchWsThen "토지".data ["제외".data] l
    bugase := searchWsThen "부가가치세".data ["별도".data, "과세".data] l ||
      searchWsThen "vat".data ["별도".data, "과세".data] l
    teugyak := isInfixCh l "특약".data || isInfixCh l "유의사항".data ||
      searchWsThen "매수인".data ["책임".data] l || searchWsThen "인수".data ["사항".data] l }

/-- An attachment candidate (`name`/`url`/`size` dict of
`detect_attachments`). -/
structure AttachmentCandidate where
  name : String
  url : String
  size : String
  deriving DecidableEq

/-- The `attachment_keywords` regexes of `detect_attachments` (`re.IGNORECASE`
is a no-op on these Korean patterns). -/
def attachmentIndicator (content : String) : Bool :=
  let l := content.data
  searchGapPair "첨부".data "파일".data l || isInfixCh l "감정평가서".data ||
    isInfixCh l "제산명세서".data || searchGapPair "토지".data "대장".data l ||
    searchGapPair "건축물".data "대장".data l || searchGapPair "등기".data "부".data l ||
    searchGapPair "파일".data "다운로드".data l

/-- `OnbidParser.detect_attachments`: keyword scan; on any hit the fixed mock
candidate list is reported `READY`, otherwise `NONE`. -/
def detect_attachments (content : String) : String × List AttachmentCandidate :=
  if content = "" then ("NONE", [])
  else if attachmentIndicator content then
    ("READY", [⟨"감정평가서.pdf", "#", "1.2MB"⟩, ⟨"토지대장.pdf", "#", "0.8MB"⟩,
               ⟨"건축물대장.pdf", "#", "0.5MB"⟩])
  else ("NONE", [])

/-- `OnbidParser.download_attachments`: all-or-nothing persistence under
`data/raw/<case key>/`; a filesystem failure (the environment's
`downloadFails` oracle) yields `DOWNLOAD_FAIL` with an empty saved list. -/
def download_attachments (downloadFails : Bool) (case_no : String)
    (attachments : List AttachmentCandidate) : String × List OnbidAttachment :=
  if attachments.isEmpty then ("NONE", [])
  else if downloadFails then ("DOWNLOAD_FAIL", [])
  else
    ("READY",
     ((List.range attachments.length).zip attachments).map
       (fun p => ⟨p.2.name, "data/raw/" ++ case_no ++ "/attachment_" ++ toString (p.1 + 1) ++ ".pdf"⟩))

/-! ## Field extractor (`_extract_mock_data`, `extract_structured_data`) -/

/-- Python's `f"{n:,}"` thousands-separator formatting of a natural number. -/
def commaGroupRev : List Char → List Char
  | [] => []
  | c :: cs =>
    if cs.length < 3 then c :: cs
    else (c :: cs).take 3 ++ ',' :: commaGroupRev ((c :: cs).drop 3)
termination_by l => l.length
decreasing_by
  simp only [List.length_drop, List.length_cons]; omega

def commaSep (n : Nat) : String := ⟨(commaGroupRev (toString n).data.reverse).reverse⟩

/-- `OnbidParser._format_real_property_as_html`. -/
def _format_real_property_as_html (case_key : String) (p : RealProp) : String :=
  let case_no := if case_key = "" then ""
    else pyReplace (pyReplace case_key "case:" "") "onbid:" ""
  let shares_info := if p.has_shares then "지분: 2분의 1" else "지분: 단독소유"
  let land_rights_info := if p.land_rights then "대지권: 있음" else "대지권: 없음"
  "\n        <html>\n        <body>\n            <div class=\"auction-info\">\n" ++
  "                <h1>압류재산 매각 공고</h1>\n                <table>\n" ++
  "                    <tr><td>사건번호:</td><td>" ++ case_no ++ "</td></tr>\n" ++
  "                    <tr><td>용도:</td><td>" ++ p.type ++ "</td></tr>\n" ++
  "                    <tr><td>소재지:</td><td>" ++ p.location ++ "</td></tr>\n" ++
  "                    <tr><td>감정가:</td><td>" ++ commaSep p.appraisal ++ "원</td></tr>\n" ++
  "                    <tr><td>최저입찰가:</td><td>" ++ commaSep p.price ++ "원 (1회차)</td></tr>\n" ++
  "                    <tr><td>토지면적:</td><td>" ++ p.land_area ++ "</td></tr>\n" ++
  "                    <tr><td>건물면적:</td><td>" ++ p.building_area ++ "</td></tr>\n" ++
  "                    <tr><td colspan=\"2\">" ++ shares_info ++ "</td></tr>\n" ++
  "                    <tr><td colspan=\"2\">" ++ land_rights_info ++ "</td></tr>\n" ++
  "                </table>\n            </div>\n        </body>\n        </html>\n        "

/-- `OnbidParser.count_extracted_keys`: the seven scalar fields plus the
`building_m2` / `land_m2` / `land_right` sub-fields of `areas`. -/
def count_extracted_keys (d : ExtractedData) : Nat :=
  (if d.asset_type.isSome then 1 else 0) + (if d.use_type.isSome then 1 else 0) +
  (if d.address.isSome then 1 else 0) + (if d.appraisal.isSome then 1 else 0) +
  (if d.min_bid.isSome then 1 else 0) + (if d.round.isSome then 1 else 0) +
  (if d.duty_deadline.isSome then 1 else 0) +
  (let a := d.areas.getD {}
   (if a.building_m2.isSome then 1 else 0) + (if a.land_m2.isSome then 1 else 0) +
   (if a.land_right.isSome then 1 else 0))

/-- `OnbidParser._extract_mock_data` (the legacy text-content branch of
extraction).  Faults: `float()` applied to an area group with more than one
dot (or no digit) raises `ValueError`, which only the orchestrator boundary
catches; modelled as `Except.error ()`. -/
def _extract_mock_data (content : String) : Except Unit ExtractedData := do
  let asset_type :=
    if pyContains content "압류재산" then some "압류재산"
    else if pyContains content "국유재산" then some "국유재산"
    else if pyContains content "수탁재산" then some "수탁재산"
    else if pyContains content "신탁공매" then some "신탁공매"
    else none
  let use_type :=
    if pyContains content "어정마을롯데캐슬에코2단지" || pyContains content "롯데캐슬" then
      some "아파트"
    else if pyContains content "오피스텔" then some "오피스텔"
    else if pyContains content "근린상가" then some "근린상가"
    else if pyContains content "공장" then some "공장"
    else if pyContains content "아파트" then some "아파트"
    else if pyContains content "토지" && !pyContains content "건물" then some "토지"
    else none
  let address := (searchLabelValue "소재지".data ['\n'] content.data).map
    (fun g => pyStrip ⟨g⟩)
  let appraisal := match searchLabelValue "감정가".data ['\n'] content.data with
    | some g => parse_monetary_value ⟨g⟩
    | none => none
  let min_bid := match searchLabelValue "최저입찰가".data ['\n', '('] content.data with
    | some g => parse_monetary_value (pyStrip ⟨g⟩)
    | none => none
  let round := (searchDigitsLit "회차".data content.data).map natOfDigits
  let land_m2 ← match searchLabelNumRun "토지면적".data content.data with
    | some g =>
      match pyFloatOfDigitsDot (g.filter (fun c => !(c = ','))) with
      | some q => pure (some q)
      | none => Except.error ()
    | none => pure none
  let building_m2 ← match searchLabelNumRun "건물면적".data content.data with
    | some g =>
      match pyFloatOfDigitsDot (g.filter (fun c => !(c = ','))) with
      | some q => pure (some q)
      | none => Except.error ()
    | none => pure none
  let land_right := some (!searchWsThen "대지권".data ["미등기".data, "없음".data] content.data)
  let duty_deadline := (searchLabelValue "배분종기".data ['\n'] content.data).map
    (fun g => pyStrip ⟨g⟩)
  .ok { asset_type, use_type, address, appraisal, min_bid, round, duty_deadline,
        areas := some { land_m2, building_m2, land_right, has_shares := none } }

/-- `OnbidParser._extract_case_from_error_page`. -/
def _extract_case_from_error_page (content : String) : Option String :=
  let second : Option String :=
    match reMatchCasePattern content with
    | some core => some ("case:" ++ core)
    | none => none
  match searchKeywordParam content.data with
  | some g =>
    if (reMatchCasePattern ⟨g⟩).isSome then some ("case:" ++ (⟨g⟩ : String)) else second
  | none => second

/-- The raw allow-list dict returned by the error-page fallback of
`extract_structured_data`, as seen by its consumers: of its keys only
`appraisal` is among the fields `count_extracted_keys` and the response
construction read (`type`, `location`, `price`, … are invisible to them). -/
def propAsExtractedData (p : RealProp) : ExtractedData :=
  { appraisal := some (p.appraisal : ℚ) }

/-- Conversion of the `parse_real_content` result to the
backwards-compatible dict (the HTML branch of `extract_structured_data`).
`if parsed_data.get("area_land"):` is Python truthiness, so a `0.0` area is
not copied. -/
def convertParsed (p : ParsedRealContent) (content : String) : ExtractedData :=
  { asset_type := match p.asset_group with
      | some v => some v
      | none => p.asset_type
    use_type := p.use_type
    address := p.address
    appraisal := p.appraisal_price
    min_bid := p.min_bid_price
    round := p.round
    duty_deadline := p.deadline_paydays
    areas := some
      { land_m2 := match p.area_land with
          | some v => if v ≠ 0 then some v else none
          | none => none
        building_m2 := match p.area_building with
          | some v => if v ≠ 0 then some v else none
          | none => none
        land_right := some (!(pyContains content "대지권 미등기" ||
          pyContains content "대지권 없음"))
        has_shares := some (pyContains content "지분:" || pyContains content "지분 " ||
          pyContains content "2분의 1" || pyContains content "공유지분") } }

/-- `OnbidParser.extract_structured_data`: HTML-tag sniffing, then the
error-page check (with the relaxed-mode allow-list fallback), the real-HTML
conversion through the `parse_real_content` oracle, or the legacy text
branch. -/
def extract_structured_data (strict : Bool) (lookup : String → Option RealProp)
    (parseReal : String → ParsedRealContent) (content : String) :
    Except Unit ExtractedData :=
  if content = "" then .ok {}
  else if pyContains (lowerStr content) "<html" || pyContains (lowerStr content) "<table" ||
      pyContains (lowerStr content) "<div" then
    if is_onbid_error_page strict content then
      if strict then .ok {}
      else
        let case_key := (_extract_case_from_error_page content).getD "case:2024-00000-000"
        match _extract_real_property_data lookup case_key with
        | some p => .ok (propAsExtractedData p)
        | none => .ok {}
    else .ok (convertParsed (parseReal content) content)
  else if strict then .ok {}
  else _extract_mock_data content

/-! ## Discovery-stage id extraction (`_extract_cltr_no_from_search`) -/

/-- The separator class `[=:'"]` as characters. -/
def cltrSepChars : List Char := ['=', ':', '\'', '"']

/-- `len(match) >= 6 and match.isdigit()` filter over the matches of one
pattern, returning the first valid id. -/
def pickValidCltr (ms : List (List Char)) : Option String :=
  ms.findSome? (fun d =>
    if d.length ≥ 6 && pyIsDigit ⟨d⟩ then some (⟨d⟩ : String) else none)

/-- `OnbidParser._extract_cltr_no_from_search`: the four id-bearing patterns
tried in order, each case-insensitively (`re.IGNORECASE`; the scan runs over
the lowered content, which leaves the digit groups unchanged).  A pattern with
matches but no valid id (length at least 6, all digits) falls through to the
next pattern, as the source's loop does. -/
def _extract_cltr_no_from_search (search_content : String) (_case_no : String) :
    Option String :=
  let low := (lowerStr search_content).data
  let p1 := findallLitSepDigits 'c' "ltrno".data cltrSepChars low
  let p2 := findallGapPattern 'h' "ref=".data (some ['"', '\'']) 'c' "ltrno".data ['=', ':'] low
  let p3 := findallGapPattern 'o' "nclick".data none 'c' "ltrno".data cltrSepChars low
  let p4 := findallLitSepDigits 'd' "ata-cltrno".data cltrSepChars low
  match pickValidCltr p1 with
  | some v => some v
  | none =>
    match pickValidCltr p2 with
    | some v => some v
    | none =>
      match pickValidCltr p3 with
      | some v => some v
      | none => pickValidCltr p4

/-! ## Identifier normalizer (`normalize_case_key`, `_normalize_url_input`) -/

/-- `OnbidParser._normalize_url_input`: the `cltrNo=` query parameter first,
then the two `URL_PATTERNS` path templates, all case-insensitive. -/
def _normalize_url_input (url : String) : Option String × Option String × Option String × String :=
  let low := (lowerStr url).data
  match searchLitDigits "cltrno=".data low with
  | some d => (some url, some ("onbid:" ++ (⟨d⟩ : String)), none, "url")
  | none =>
    match searchLitDigits "/op/cta/cltrdtl/collateralrealestatedetail.do?cltrno=".data low with
    | some d => (some url, some ("onbid:" ++ (⟨d⟩ : String)), none, "url")
    | none =>
      match searchLitDigits "/auction/case/".data low with
      | some d => (some url, some ("onbid:" ++ (⟨d⟩ : String)), none, "url")
      | none => (some url, none, none, "invalid")

/-- `OnbidParser.normalize_case_key`: returns
`(requested_case, case_key, case_no, source_hint)`. -/
def normalize_case_key (req : OnbidParseRequest) :
    Option String × Option String × Option String × String :=
  match pyOrStr req.case req.url with
  | none => (none, none, none, "invalid")
  | some s =>
    if s = "" then (none, none, none, "invalid")
    else if pyStartsWith s "http" then _normalize_url_input s
    else if pyStartsWith s "onbid:" then
      let cltr := pyReplace s "onbid:" ""
      if pyIsDigit cltr then (some s, some ("onbid:" ++ cltr), none, "url")
      else (some s, none, none, "invalid")
    else if (reMatchCasePattern s).isSome then (some s, some ("case:" ++ s), some s, "case")
    else (some s, none, none, "invalid")

/-! ## Orchestrator (`parse_onbid_case`)

The environment collects everything outside the value-level computation: the
outcome of each network attempt per URL, the two cache stores, the injected
allow-list, the HTML-walk oracle, the attachment-persistence oracle and the
strict-mode flag.  `req_id` (a fresh `uuid4` in the source) is passed in. -/

structure Env where
  /-- Outcome of the i-th attempt of a fetch of the given URL. -/
  attempts : String → Nat → Attempt
  /-- Raw archive (`data/raw/<case_key>/raw_data.json`), keyed by case key. -/
  rawArchive : String → Option (Option RawData)
  /-- Response cache (`data/cache/<case_key>/latest.json`) payloads, keyed by
  case key; opaque here because `parse_onbid_case` never reads it. -/
  responseCache : String → Option String
  /-- Injected allow-list of known real properties. -/
  realProps : String → Option RealProp
  /-- Oracle for `parse_real_content` (lxml/BeautifulSoup HTML walk). -/
  parseReal : String → ParsedRealContent
  /-- Attachment persistence failure oracle (filesystem errors). -/
  downloadFails : Bool
  /-- `SCRAPER_STRICT` execution mode. -/
  strict : Bool

/-- `self.fetch_content(url)` as the orchestrator sees it. -/
def envFetch (env : Env) (url : String) : FetchResult :=
  fetch_content (env.attempts url)

/-- `ERROR_MESSAGES` lookup (only the entries the orchestrator reads). -/
def errMsg (code : String) : String :=
  if code = "INVALID_INPUT" then "URL/사건번호 형식이 올바르지 않습니다."
  else if code = "REMOTE_HTTP_403" then "원격 서버가 차단(403)했습니다. 잠시 후 재시도하거나 사건번호로 시도하세요."
  else if code = "REMOTE_HTTP_404" then "원격 서버에서 해당 사건을 찾을 수 없습니다(404)."
  else if code = "REMOTE_HTTP_500" then "원격 서버 내부 오류(500)입니다. 잠시 후 재시도하세요."
  else if code = "CAPTCHA_DETECTED" then "CAPTCHA가 감지되었습니다. 잠시 후 재시도하거나 사건번호로 시도하세요."
  else if code = "TIMEOUT" then "요청 시간 초과(7초)입니다. 네트워크 상태를 확인하세요."
  else if code = "ATTACHMENT_NONE" then "첨부 미게시 상태(입찰준비중일 수 있음). 최소정보로 진행합니다."
  else if code = "ATTACHMENT_DOWNLOAD_FAIL" then "첨부 다운로드에 실패했습니다. 네트워크 후 재시도."
  else if code = "PARSE_MISSING_FIELD" then "필수 필드가 누락되었습니다(DOM 변경 가능)."
  else if code = "PARSE_EMPTY" then "문서에서 필요한 정보를 찾지 못했습니다(형식 변경 가능)."
  else if code = "UNKNOWN" then "알 수 없는 오류. 로그를 확인하세요."
  else ""

/-- `ERROR_MESSAGES.get(code, fallback)` used for fetch errors. -/
def errMsgGet (code : String) (fallback : String) : String :=
  let m := errMsg code
  if code = "INVALID_INPUT" ∨ code = "REMOTE_HTTP_403" ∨ code = "REMOTE_HTTP_404" ∨
     code = "REMOTE_HTTP_500" ∨ code = "CAPTCHA_DETECTED" ∨ code = "TIMEOUT" ∨
     code = "ATTACHMENT_NONE" ∨ code = "ATTACHMENT_DOWNLOAD_FAIL" ∨
     code = "PARSE_MISSING_FIELD" ∨ code = "PARSE_EMPTY" ∨ code = "UNKNOWN" then m
  else fallback

/-- `OnbidParser._create_error_response`. -/
def _create_error_response (req_id error_code error_hint : String)
    (requested_case case_key case_no source_hint : Option String)
    (debug_info : Option OnbidDebugInfo) : OnbidParseResponse :=
  let mismatch :=
    if truthy requested_case && truthy case_no &&
        decide (requested_case ≠ case_no) then true
    else if truthy requested_case && truthy case_key &&
        decide (requested_case ≠ case_key) then true
    else false
  { status := "pending", requested_case, case_key, case_no, source_hint, mismatch,
    asset_type := none, use_type := none, address := none, areas := {},
    appraisal := none, min_bid := none, round := none, duty_deadline := none,
    pay_due := {}, flags := {}, attachments := [], attachment_state := "NONE",
    notes := some error_hint, extracted_keys := 0, error_code := some error_code,
    error_hint := some error_hint,
    debug := debug_info.getD ⟨"unknown", none, none⟩, req_id }

/-- The three discovery-stage search URL templates (stage 1). -/
def searchUrls (case_no_clean : String) : List String :=
  ["https://www.onbid.co.kr/op/ppa/plnmmn/publicAnnounceList.do?q=" ++ case_no_clean,
   "https://www.onbid.co.kr/op/ppa/plnmmn/publicAnnounceList.do?searchKeyword=" ++ case_no_clean,
   "https://www.onbid.co.kr/op/search/searchIntegral.do?keyword=" ++ case_no_clean]

/-- The detail-stage URL templates: discovered-id templates when a `cltrNo`
was found, legacy case-number templates otherwise (`if cltr_no_discovered:` is
Python truthiness). -/
def detailUrls (case_no_clean : String) (cltr_disc : Option String) : List String :=
  if truthy cltr_disc then
    let c := cltr_disc.getD ""
    ["https://www.onbid.co.kr/op/ppa/plnmmn/publicAnnounceRlstDetail.do?cltrNo=" ++ c,
     "https://www.onbid.co.kr/op/scrap/announceDetail.do?cltrNo=" ++ c,
     "https://www.onbid.co.kr/op/cta/cltrdtl/collateralRealEstateDetail.do?cltrNo=" ++ c]
  else
    ["https://www.onbid.co.kr/op/ppa/plnmmn/publicAnnounceRlstDetail.do?keyword=" ++ case_no_clean,
     "https://www.onbid.co.kr/op/ppa/plnmmn/publicAnnounceDetail.do?searchKeyword=" ++ case_no_clean,
     "https://www.onbid.co.kr/op/gj/cltrdtl/goodsDetail.do?searchKeyword=" ++ case_no_clean]

/-- Stage 1 (discovery): first search response that is truthy with status 200
and yields an id through `_extract_cltr_no_from_search`. -/
def discoveryLoop (env : Env) (case_no_clean : String) : List String → Option String
  | [] => none
  | u :: rest =>
    let fr := envFetch env u
    if truthy fr.content && fr.http_status == some 200 then
      match _extract_cltr_no_from_search (fr.content.getD "") case_no_clean with
      | some c => some c
      | none => discoveryLoop env case_no_clean rest
    else discoveryLoop env case_no_clean rest

def discoveryStage (env : Env) (case_no_clean : String) : Option String :=
  discoveryLoop env case_no_clean (searchUrls case_no_clean)

/-- State threaded through the stage-2 loop: the variables
`content`/`http_status`/`fetch_error`/`last_url` of the source, which each
iteration overwrites before deciding whether to accept and break. -/
structure DetailState where
  content : Option String := none
  http_status : Option Nat := none
  error_code : Option String := none
  last_url : Option String := none
  deriving DecidableEq

/-- Stage 2 (detail): accept the first candidate with no fetch error, truthy
content longer than 1000 characters that passes `_is_detail_page` against the
discovered id; otherwise keep the candidate's outcome and continue. -/
def detailLoop (env : Env) (cltr_disc : Option String) (st : DetailState) :
    List String → DetailState
  | [] => st
  | u :: rest =>
    let fr := envFetch env u
    let st2 : DetailState := ⟨fr.content, fr.http_status, fr.error_code, some u⟩
    if !truthy fr.error_code && truthy fr.content &&
        decide ((fr.content.getD "").length > 1000) then
      if is_detail_page (fr.content.getD "") cltr_disc then st2
      else detailLoop env cltr_disc st2 rest
    else detailLoop env cltr_disc st2 rest

def detailStage (env : Env) (case_no_clean : String) (cltr_disc : Option String) : DetailState :=
  detailLoop env cltr_disc {} (detailUrls case_no_clean cltr_disc)

/-- The post-loop validation (source lines 1268-1273): a final content that
fails `_is_detail_page` (with no expected id) is discarded under strict mode,
forcing the failure branch with `fetch_error = "REMOTE_HTTP_403"`. -/
def postValidate (strict : Bool) (st : DetailState) : Option String × Option String :=
  if truthy st.content && !is_detail_page (st.content.getD "") none && strict then
    (none, some "REMOTE_HTTP_403")
  else (st.content, st.error_code)

/-- The failure test of source line 1276:
`if fetch_error or not content or len(content) < 1000`. -/
def resolveFailed (p : Option String × Option String) : Bool :=
  truthy p.2 || !truthy p.1 || decide ((p.1.getD "").length < 1000)

/-- The notes / error_code / error_hint chain of steps 9-bis (source lines
1393-1413): attachment-state codes take precedence; `PARSE_EMPTY` is reported
only past both attachment branches; a mismatch hint, when present, is kept. -/
def errorChain (attachment_state : String) (extracted_keys : Nat)
    (error_hint0 : Option String) : Option String × Option String × Option String :=
  if attachment_state = "NONE" then
    (some "입찰준비중: 첨부 미게시(정상 케이스일 수 있음)", some "ATTACHMENT_NONE",
     some (if truthy error_hint0 then error_hint0.getD "" else errMsg "ATTACHMENT_NONE"))
  else if attachment_state = "DOWNLOAD_FAIL" then
    (none, some "ATTACHMENT_DOWNLOAD_FAIL",
     some (if truthy error_hint0 then error_hint0.getD "" else errMsg "ATTACHMENT_DOWNLOAD_FAIL"))
  else if extracted_keys < 8 then
    (none, some "PARSE_EMPTY",
     some (if truthy error_hint0 then error_hint0.getD "" else errMsg "PARSE_EMPTY"))
  else (none, none, error_hint0)

/-- Steps 4-13 of `parse_onbid_case` (every path that is not short-circuited
by an error response): attachment detection and download, structured
extraction, flag detection, key counting, mismatch detection, the
attachment/extraction error-code chain, and the response construction.
`save_case_data` (step 10, its guard `not request.force or not use_cache` is
identically true) and `save_to_cache` (step 13) write to the stores and do not
affect the returned value. -/
def finalize (env : Env) (req_id : String) (requested_case : Option String)
    (case_key : String) (case_no : Option String) (source_hint : String)
    (content : Option String) (http_status : Option Nat) (last_url : Option String) :
    Except Unit OnbidParseResponse :=
  let safe_content := content.getD ""
  let det := detect_attachments safe_content
  let dl := if det.1 = "READY" then download_attachments env.downloadFails case_key det.2
    else (det.1, [])
  let attachment_state := dl.1
  let saved_attachments := dl.2
  match extract_structured_data env.strict env.realProps env.parseReal safe_content with
  | .error e => .error e
  | .ok extracted =>
  let flags := detect_flags safe_content
  let extracted_keys := count_extracted_keys extracted
  let status := if extracted_keys ≥ 8 then "ok" else "pending"
  let case_no_extracted : Option String :=
    if truthy content then reMatchCasePattern (content.getD "") else none
  let cltr_no_extracted : Option String :=
    if truthy content then
      (searchLitSepDigits "cltrNo".data cltrSepChars (content.getD "").data).map
        (fun d => (⟨d⟩ : String))
    else none
  let mismatch := detect_mismatch (requested_case.getD "") case_no_extracted
    cltr_no_extracted case_key
  let error_hint0 : Option String :=
    if mismatch then some "입력 사건과 응답 사건이 다릅니다" else none
  let nec := errorChain attachment_state extracted_keys error_hint0
  .ok { status, requested_case, case_key := some case_key, case_no,
        source_hint := some source_hint, mismatch,
        asset_type := extracted.asset_type, use_type := extracted.use_type,
        address := extracted.address,
        areas := (fun a => ⟨a.building_m2, a.land_m2, a.land_right⟩) (extracted.areas.getD {}),
        appraisal := extracted.appraisal, min_bid := extracted.min_bid,
        round := extracted.round, duty_deadline := extracted.duty_deadline,
        pay_due := {}, flags, attachments := saved_attachments, attachment_state,
        notes := nec.1, extracted_keys, error_code := nec.2.1, error_hint := nec.2.2,
        debug := ⟨source_hint, http_status, some (last_url.getD "")⟩, req_id }

/-- The body of `parse_onbid_case`'s `try` block (steps 1-13).  The
`if fetch_error and source_hint == "url":` handler at source lines 1335-1355
sits inside the unknown-source `else:` branch, where `source_hint` is never
`"url"` and `fetch_error` is always `None`; being unreachable, it contributes
nothing to this function. -/
def parseMain (env : Env) (req : OnbidParseRequest) (req_id : String) :
    Except Unit OnbidParseResponse :=
  let n := normalize_case_key req
  let requested_case := n.1
  let case_no := n.2.2.1
  let source_hint := n.2.2.2
  match n.2.1 with
  | none =>
    .ok (_create_error_response req_id "INVALID_INPUT" (errMsg "INVALID_INPUT")
      requested_case none none (some source_hint) (some ⟨source_hint, none, none⟩))
  | some case_key =>
    -- step 2: `check_cache_exists` is called when `force` is false, but its
    -- outcome only drives a log line; control flow is unchanged.
    if source_hint = "url" then
      let cltr_no := pyReplace case_key "onbid:" ""
      let last_url :=
        "https://www.onbid.co.kr/op/cta/cltrdtl/collateralRealEstateDetail.do?cltrNo=" ++ cltr_no
      let fr := envFetch env last_url
      -- the fetch-error handler that the comment at source line 1335 promises
      -- for this mode is unreachable (see the docstring); control falls
      -- through to steps 4-13 with `content = None` on a failed fetch.
      finalize env req_id requested_case case_key case_no source_hint
        fr.content fr.http_status (some last_url)
    else if source_hint = "case" then
      let case_no_clean := pyReplace case_key "case:" ""
      let cltr_disc := discoveryStage env case_no_clean
      let ds := detailStage env case_no_clean cltr_disc
      let pv := postValidate env.strict ds
      if resolveFailed pv then
        if env.strict then
          .ok (_create_error_response req_id "REMOTE_HTTP_ERROR"
            ("모든 실제 URL 시도 실패: " ++ pyOrDefault pv.2 "Unknown error")
            requested_case (some case_key) requested_case (some source_hint) none)
        else
          match _extract_real_property_data env.realProps case_key with
          | some p =>
            finalize env req_id requested_case case_key case_no source_hint
              (some (_format_real_property_as_html case_key p)) (some 200) ds.last_url
          | none =>
            .ok (_create_error_response req_id "PARSE_EMPTY" "알려진 매물 정보가 없습니다"
              requested_case (some case_key) requested_case (some source_hint) none)
      else
        finalize env req_id requested_case case_key case_no source_hint
          pv.1 ds.http_status ds.last_url
    else
      -- unknown source hint with a case key (unreachable from
      -- `normalize_case_key`, which only pairs a key with "url" or "case")
      if env.strict then
        .ok (_create_error_response req_id "INVALID_INPUT" ("알 수 없는 소스: " ++ source_hint)
          requested_case (some case_key) requested_case (some source_hint) none)
      else
        match _extract_real_property_data env.realProps case_key with
        | some p =>
          finalize env req_id requested_case case_key case_no source_hint
            (some (_format_real_property_as_html case_key p)) (some 200) none
        | none =>
          .ok (_create_error_response req_id "PARSE_EMPTY" "알려진 매물 정보가 없습니다"
            requested_case (some case_key) requested_case (some source_hint) none)

/-- The `try/except Exception` boundary of `parse_onbid_case`: any fault
raised by the body is converted into the fixed `UNKNOWN` error response. -/
def parse_onbid_case_with (body : OnbidParseRequest → Except Unit OnbidParseResponse)
    (req : OnbidParseRequest) (req_id : String) : OnbidParseResponse :=
  match body req with
  | .ok r => r
  | .error _ =>
    _create_error_response req_id "UNKNOWN" (errMsg "UNKNOWN")
      (some "unknown") none none (some "unknown") (some ⟨"unknown", none, none⟩)

/-- `OnbidParser.parse_onbid_case`. -/
def parse_onbid_case (env : Env) (req : OnbidParseRequest) (req_id : String) :
    OnbidParseResponse :=
  parse_onbid_case_with (fun r => parseMain env r req_id) req req_id

/-! ## Helper lemmas -/

theorem truthy_some_iff (s : String) : truthy (some s) = true ↔ s ≠ "" := by
  cases s with
  | mk l =>
    cases l with
    | nil =>
      constructor
      · intro h; exact absurd h (by simp [truthy])
      · intro h; exact absurd rfl h
    | cons c cs =>
      constructor
      · intro _ h
        have : (String.mk (c :: cs)).data = ("" : String).data := by rw [h]
        simp at this
      · intro _; simp [truthy]

theorem processHttpResponse_captcha (text : String) (status : Nat) (h1 : status ≠ 403)
    (h2 : captchaFlagged text = true) :
    processHttpResponse text status = ⟨none, some status, some "CAPTCHA_DETECTED"⟩ := by
  have ht : truthy (some text) = true := by
    rcases text with ⟨_ | ⟨c, cs⟩⟩
    · exact absurd h2 (by decide)
    · simp [truthy]
  unfold processHttpResponse detect_captcha_or_block
  rw [if_neg h1, ht, h2]
  simp

theorem detect_attachments_fst (c : String) :
    (detect_attachments c).1 = "NONE" ∨ (detect_attachments c).1 = "READY" := by
  unfold detect_attachments
  split_ifs <;> simp

theorem download_attachments_fst (f : Bool) (cn : String) (a : List AttachmentCandidate) :
    (download_attachments f cn a).1 = "NONE" ∨ (download_attachments f cn a).1 = "DOWNLOAD_FAIL" ∨
    (download_attachments f cn a).1 = "READY" := by
  unfold download_attachments
  split_ifs <;> simp

theorem errorChain_spec (A : String) (keys : Nat) (h0 : Option String) :
    (A = "NONE" → (errorChain A keys h0).2.1 = some "ATTACHMENT_NONE") ∧
    (A = "DOWNLOAD_FAIL" → (errorChain A keys h0).2.1 = some "ATTACHMENT_DOWNLOAD_FAIL") ∧
    ((errorChain A keys h0).2.1 = some "PARSE_EMPTY" →
      A ≠ "NONE" ∧ A ≠ "DOWNLOAD_FAIL" ∧ keys < 8) := by
  unfold errorChain
  split_ifs with h1 h2 h3 <;> simp_all

theorem envFetch_congr (e1 e2 : Env) (h : e1.attempts = e2.attempts) (u : String) :
    envFetch e1 u = envFetch e2 u := by
  unfold envFetch; rw [h]

theorem discoveryLoop_congr (e1 e2 : Env) (h : e1.attempts = e2.attempts) (cd : String)
    (urls : List String) : discoveryLoop e1 cd urls = discoveryLoop e2 cd urls := by
  induction urls with
  | nil => rfl
  | cons u rest ih =>
    unfold discoveryLoop
    rw [envFetch_congr e1 e2 h u, ih]

theorem discoveryStage_congr (e1 e2 : Env) (h : e1.attempts = e2.attempts) (cd : String) :
    discoveryStage e1 cd = discoveryStage e2 cd :=
  discoveryLoop_congr e1 e2 h cd _

theorem detailLoop_congr (e1 e2 : Env) (h : e1.attempts = e2.attempts) (cltr : Option String)
    (st : DetailState) (urls : List String) :
    detailLoop e1 cltr st urls = detailLoop e2 cltr st urls := by
  induction urls generalizing st with
  | nil => rfl
  | cons u rest ih =>
    unfold detailLoop
    simp only [envFetch_congr e1 e2 h u, ih]

theorem detailStage_congr (e1 e2 : Env) (h : e1.attempts = e2.attempts) (cd : String)
    (cltr : Option String) : detailStage e1 cd cltr = detailStage e2 cd cltr :=
  detailLoop_congr e1 e2 h cltr _ _

theorem finalize_congr (e1 e2 : Env) (h2 : e1.strict = e2.strict)
    (h3 : e1.realProps = e2.realProps) (h4 : e1.parseReal = e2.parseReal)
    (h5 : e1.downloadFails = e2.downloadFails) (rid : String) (requested : Option String)
    (ck : String) (cno : Option String) (hint : String) (content : Option String)
    (hstat : Option Nat) (lurl : Option String) :
    finalize e1 rid requested ck cno hint content hstat lurl =
      finalize e2 rid requested ck cno hint content hstat lurl := by
  unfold finalize
  rw [h2, h3, h4, h5]

/-- `parseMain` reads the environment only through the network attempts, the
strict flag, the allow-list, the HTML-walk oracle and the download oracle; in
particular it never reads the raw archive or the response cache. -/
theorem parseMain_congr (e1 e2 : Env) (h : e1.attempts = e2.attempts)
    (h2 : e1.strict = e2.strict) (h3 : e1.realProps = e2.realProps)
    (h4 : e1.parseReal = e2.parseReal) (h5 : e1.downloadFails = e2.downloadFails)
    (req : OnbidParseRequest) (rid : String) :
    parseMain e1 req rid = parseMain e2 req rid := by
  unfold parseMain
  simp only [envFetch_congr e1 e2 h, discoveryStage_congr e1 e2 h,
    detailStage_congr e1 e2 h, finalize_congr e1 e2 h2 h3 h4 h5, h2, h3]

/-! ## Concrete environments used in the claim-level evaluations -/

/-- Environment where every fetch of the single url-mode detail URL yields an
HTTP 403 response (hence error kind `REMOTE_HTTP_403`). -/
def envC2 : Env :=
  { attempts := fun _ _ => .response "" 403
    rawArchive := fun _ => none
    responseCache := fun _ => none
    realProps := real_properties
    parseReal := fun _ => {}
    downloadFails := false
    strict := true }

def reqC2 : OnbidParseRequest := { case := some "onbid:1234567", url := none, force := true }

/-- A 1001-character document with no auction field labels: longer than the
1000-character acceptance threshold but failing `_is_detail_page`. -/
def invalidLong : String := ⟨List.replicate 1001 'x'⟩

/-- Relaxed-mode environment where every discovery search fails with a
transport error and every detail candidate returns `invalidLong` with
status 200 — so every detail candidate fails detail-page validation. -/
def envC4 : Env :=
  { attempts := fun url _ =>
      if pyContains url "publicAnnounceList" || pyContains url "searchIntegral" then .requestExc
      else .response invalidLong 200
    rawArchive := fun _ => none
    responseCache := fun _ => none
    realProps := real_properties
    parseReal := fun _ => {}
    downloadFails := false
    strict := false }

def reqC4 : OnbidParseRequest := { case := some "2024-99999-999", url := none, force := true }

/-- Strict-mode environment where every network attempt raises a transport
error, so resolution of any case number fails outright. -/
def envW4 : Env :=
  { attempts := fun _ _ => .requestExc
    rawArchive := fun _ => none
    responseCache := fun _ => none
    realProps := real_properties
    parseReal := fun _ => {}
    downloadFails := false
    strict := true }

/-- Environment for a finalize-level evaluation; its fetches never succeed. -/
def envPlain : Env :=
  { attempts := fun _ _ => .requestExc
    rawArchive := fun _ => none
    responseCache := fun _ => none
    realProps := real_properties
    parseReal := fun _ => {}
    downloadFails := false
    strict := true }

/-- The finalized response of `envPlain` for an absent document (used to
instantiate the attachment-precedence theorem at a concrete input). -/
def respC10 : OnbidParseResponse :=
  match finalize envPlain "w10" none "k" none "url" none none none with
  | .ok r => r
  | .error _ =>
    _create_error_response "w10" "UNKNOWN" (errMsg "UNKNOWN") none none none none none

/-! ## Claim theorems -/

/-- C1: for every request and any internal fault, the `try/except` boundary of
`parse_onbid_case` converts the fault into the complete structured error
response with error code `UNKNOWN`; no exception escapes the call. -/
theorem C1_unknown_boundary (body : OnbidParseRequest → Except Unit OnbidParseResponse)
    (req : OnbidParseRequest) (rid : String) (f : Unit) (h : body req = .error f) :
    parse_onbid_case_with body req rid =
      _create_error_response rid "UNKNOWN" (errMsg "UNKNOWN") (some "unknown") none none
        (some "unknown") (some ⟨"unknown", none, none⟩) ∧
    (parse_onbid_case_with body req rid).error_code = some "UNKNOWN" := by
  unfold parse_onbid_case_with
  rw [h]
  exact ⟨rfl, rfl⟩

theorem C1_unknown_boundary_witness :
    (parse_onbid_case_with (fun _ => Except.error ()) {} "w1").error_code = some "UNKNOWN" :=
  (C1_unknown_boundary (fun _ => Except.error ()) {} "w1" () rfl).2

/-- C2: the code, not the claim, is at fault.  For a url-source request whose
single detail fetch yields `REMOTE_HTTP_403`, the orchestrator does NOT
short-circuit with that fetch error: the handler at source lines 1335-1355 is
mis-indented into the unreachable unknown-source branch (contradicting its own
comment "Handle fetch errors (only for URL mode, case mode has fallback)"),
so control falls through to the attachment/extraction steps and the returned
error code is `ATTACHMENT_NONE`, with the 403 only visible in the debug
status. -/
theorem C2_url_fetch_error_falls_through :
    envFetch envC2 "https://www.onbid.co.kr/op/cta/cltrdtl/collateralRealEstateDetail.do?cltrNo=1234567" =
      ⟨none, some 403, some "REMOTE_HTTP_403"⟩ ∧
    (parse_onbid_case envC2 reqC2 "rid").error_code = some "ATTACHMENT_NONE" ∧
    (parse_onbid_case envC2 reqC2 "rid").debug.http_status = some 403 ∧
    (parse_onbid_case envC2 reqC2 "rid").attachment_state = "NONE" ∧
    (parse_onbid_case envC2 reqC2 "rid").status = "pending" :=
  ⟨by with_unfolding_all rfl, by with_unfolding_all rfl, by with_unfolding_all rfl,
   by with_unfolding_all rfl, by with_unfolding_all rfl⟩

/-- C3: a raw-archive entry written under relaxed execution mode (hence
without the `strict_mode` / `mock_blocked` markers) is never a cache hit for a
strict-mode reader; an undeserializable entry is also a miss; and a strict
reader accepts an entry exactly when both markers confirm strict
provenance. -/
theorem C3_strict_cache_isolation :
    (∀ p : String,
      check_cache_exists true (some (some (save_case_data false ⟨p, false, false⟩))) = false) ∧
    check_cache_exists true (some none) = false ∧
    (∀ d : RawData, check_cache_exists true (some (some d)) = true ↔
      d.strict_mode = true ∧ d.mock_blocked = true) := by
  refine ⟨fun p => ?_, by simp [check_cache_exists], fun d => ?_⟩
  · simp [check_cache_exists, save_case_data]
  · unfold check_cache_exists
    cases hs : d.strict_mode <;> cases hm : d.mock_blocked <;> simp [hs, hm]

/-- C4 (counterexample): under relaxed execution mode, a case-number request
for `2024-99999-999` (not in the allow-list) where all three detail
candidates fetch cleanly (status 200, no fetch error, 1001 characters) but
every candidate fails detail-page validation.  The claim says resolution
still fails with an error response; instead the pipeline proceeds to
finalize with the invalid page: the result carries `ATTACHMENT_NONE` (with
one extracted key), not the `PARSE_EMPTY` resolution-failure response. -/
theorem C4_counterexample :
    envC4.strict = false ∧
    envFetch envC4 "https://www.onbid.co.kr/op/ppa/plnmmn/publicAnnounceRlstDetail.do?keyword=2024-99999-999" =
      ⟨some invalidLong, some 200, none⟩ ∧
    envFetch envC4 "https://www.onbid.co.kr/op/ppa/plnmmn/publicAnnounceDetail.do?searchKeyword=2024-99999-999" =
      ⟨some invalidLong, some 200, none⟩ ∧
    envFetch envC4 "https://www.onbid.co.kr/op/gj/cltrdtl/goodsDetail.do?searchKeyword=2024-99999-999" =
      ⟨some invalidLong, some 200, none⟩ ∧
    is_detail_page invalidLong none = false ∧
    invalidLong.length = 1001 ∧
    real_properties "2024-99999-999" = none ∧
    (parse_onbid_case envC4 reqC4 "r4").error_code = some "ATTACHMENT_NONE" ∧
    (parse_onbid_case envC4 reqC4 "r4").extracted_keys = 1 :=
  ⟨rfl, by with_unfolding_all rfl, by with_unfolding_all rfl, by with_unfolding_all rfl,
   by with_unfolding_all rfl, by with_unfolding_all rfl, by with_unfolding_all rfl,
   by with_unfolding_all rfl, by with_unfolding_all rfl⟩

/-- C4 (amended): for every case-number request whose detail stage ends in
the failure state the code tests for — a fetch error, missing/empty content,
or content shorter than 1000 characters in the final candidate outcome, with
a strict-mode final content failing detail-page validation first discarded
into that state — the resolver behaves as claimed: under strict execution
mode the result is the terminal `REMOTE_HTTP_ERROR` error response and the
allow-listed fallback is never consulted (the result is unchanged under any
substitution `rp2` of the allow-list); under relaxed execution mode the
allow-list is consulted and, when the requested case number is not among its
entries, the result is the `PARSE_EMPTY` error response. -/
theorem C4_resolution_failure (att : String → Nat → Attempt)
    (ra : String → Option (Option RawData)) (rc : String → Option String)
    (rp rp2 : String → Option RealProp) (pr : String → ParsedRealContent)
    (dlf strict : Bool) (req : OnbidParseRequest) (rid : String)
    (requested : Option String) (ck : String) (cno : Option String)
    (h1 : normalize_case_key req = (requested, some ck, cno, "case"))
    (h2 : resolveFailed (postValidate strict
        (detailStage ⟨att, ra, rc, rp, pr, dlf, strict⟩ (pyReplace ck "case:" "")
          (discoveryStage ⟨att, ra, rc, rp, pr, dlf, strict⟩ (pyReplace ck "case:" "")))) = true) :
    (strict = true →
      parse_onbid_case ⟨att, ra, rc, rp, pr, dlf, strict⟩ req rid =
        _create_error_response rid "REMOTE_HTTP_ERROR"
          ("모든 실제 URL 시도 실패: " ++ pyOrDefault (postValidate strict
              (detailStage ⟨att, ra, rc, rp, pr, dlf, strict⟩ (pyReplace ck "case:" "")
                (discoveryStage ⟨att, ra, rc, rp, pr, dlf, strict⟩ (pyReplace ck "case:" "")))).2
            "Unknown error")
          requested (some ck) requested (some "case") none ∧
      parse_onbid_case ⟨att, ra, rc, rp2, pr, dlf, strict⟩ req rid =
        parse_onbid_case ⟨att, ra, rc, rp, pr, dlf, strict⟩ req rid) ∧
    (strict = false →
      _extract_real_property_data rp ck = none →
      parse_onbid_case ⟨att, ra, rc, rp, pr, dlf, strict⟩ req rid =
        _create_error_response rid "PARSE_EMPTY" "알려진 매물 정보가 없습니다"
          requested (some ck) requested (some "case") none) := by
  have main : ∀ (rpx : String → Option RealProp), strict = true →
      parse_onbid_case ⟨att, ra, rc, rpx, pr, dlf, strict⟩ req rid =
        _create_error_response rid "REMOTE_HTTP_ERROR"
          ("모든 실제 URL 시도 실패: " ++ pyOrDefault (postValidate strict
              (detailStage ⟨att, ra, rc, rp, pr, dlf, strict⟩ (pyReplace ck "case:" "")
                (discoveryStage ⟨att, ra, rc, rp, pr, dlf, strict⟩ (pyReplace ck "case:" "")))).2
            "Unknown error")
          requested (some ck) requested (some "case") none := by
    intro rpx hs
    subst hs
    have hatt : (⟨att, ra, rc, rpx, pr, dlf, true⟩ : Env).attempts =
        (⟨att, ra, rc, rp, pr, dlf, true⟩ : Env).attempts := rfl
    have hdisc := discoveryStage_congr _ _ hatt (pyReplace ck "case:" "")
    have hdet : detailStage (⟨att, ra, rc, rpx, pr, dlf, true⟩ : Env) (pyReplace ck "case:" "")
        (discoveryStage (⟨att, ra, rc, rpx, pr, dlf, true⟩ : Env) (pyReplace ck "case:" "")) =
        detailStage (⟨att, ra, rc, rp, pr, dlf, true⟩ : Env) (pyReplace ck "case:" "")
        (discoveryStage (⟨att, ra, rc, rp, pr, dlf, true⟩ : Env) (pyReplace ck "case:" "")) := by
      rw [hdisc]
      exact detailStage_congr _ _ hatt _ _
    unfold parse_onbid_case parse_onbid_case_with parseMain
    simp only [h1]
    simp only [hdet, String.reduceEq, reduceIte, h2]
  refine ⟨fun hs => ⟨main rp hs, (main rp2 hs).trans (main rp hs).symm⟩, fun hs hnone => ?_⟩
  subst hs
  unfold parse_onbid_case parse_onbid_case_with parseMain
  simp only [h1]
  simp only [String.reduceEq, reduceIte, h2, hnone]
  simp only [Bool.false_eq_true, if_false]

theorem C4_resolution_failure_witness :
    parse_onbid_case envW4 reqC4 "w4" =
      _create_error_response "w4" "REMOTE_HTTP_ERROR" "모든 실제 URL 시도 실패: UNKNOWN"
        (some "2024-99999-999") (some "case:2024-99999-999") (some "2024-99999-999")
        (some "case") none := by
  have h := (C4_resolution_failure (fun _ _ => .requestExc) (fun _ => none) (fun _ => none)
      real_properties real_properties (fun _ => {}) false true reqC4 "w4"
      (some "2024-99999-999") "case:2024-99999-999" (some "2024-99999-999")
      (by with_unfolding_all rfl) (by with_unfolding_all rfl)).1 rfl
  exact h.1.trans (by with_unfolding_all rfl)

/-- C5: the monetary parser yields the claimed values on the four listed
amount classes, yields null on the empty string, and yields null on any text
containing no digit group. -/
theorem C5_monetary_values :
    parse_monetary_value "2억 3500만원" = some 235000000 ∧
    parse_monetary_value "15억 원" = some 1500000000 ∧
    parse_monetary_value "850만원" = some 8500000 ∧
    parse_monetary_value "5000원" = some 5000 ∧
    parse_monetary_value "" = none ∧
    (∀ text : String, (∀ c ∈ text.data, ¬ c.isDigit = true) →
      parse_monetary_value text = none) :=
  ⟨by with_unfolding_all rfl, by with_unfolding_all rfl, by with_unfolding_all rfl,
   by with_unfolding_all rfl, by with_unfolding_all rfl, parse_monetary_value_none_of_no_digit⟩

theorem C5_monetary_values_witness : parse_monetary_value "가격 미정" = none :=
  C5_monetary_values.2.2.2.2.2 "가격 미정" (by decide)

/-- C6: after prefix/whitespace normalization, the mismatch detector with both
extracted identifiers available returns false exactly when the normalized
request equals the extracted case number or the extracted internal id in its
`onbid:` form, and true otherwise; and the two concrete scenarios of the spec
evaluate as claimed. -/
theorem C6_mismatch_detector :
    (∀ req cno cltr ck : String, cno ≠ "" → cltr ≠ "" →
      (detect_mismatch req (some cno) (some cltr) ck = false ↔
        normalize_case_for_comparison req = normalize_case_for_comparison cno ∨
        normalize_case_for_comparison req = normalize_case_for_comparison ("onbid:" ++ cltr))) ∧
    detect_mismatch "2024-01774-006" (some "2024-01774-006") none "case:2024-01774-006" = false ∧
    detect_mismatch "2024-01774-006" (some "9999-99999-999") (some "555555")
      "case:2024-01774-006" = true := by
  refine ⟨fun req cno cltr ck h1 h2 => ?_, by with_unfolding_all rfl, by with_unfolding_all rfl⟩
  have t1 : truthy (some cno) = true := (truthy_some_iff cno).mpr h1
  have t2 : truthy (some cltr) = true := (truthy_some_iff cltr).mpr h2
  unfold detect_mismatch
  rw [t1, t2]
  simp only [Bool.and_self, if_true, Option.getD_some]
  by_cases e1 : normalize_case_for_comparison req = normalize_case_for_comparison cno
  · simp [e1]
  · by_cases e2 : normalize_case_for_comparison req =
        normalize_case_for_comparison ("onbid:" ++ cltr)
    · simp [e1, e2]
    · simp [e1, e2]

theorem C6_mismatch_detector_witness :
    detect_mismatch "123456" (some "9999-99999-999") (some "123456") "case:x" = false :=
  (C6_mismatch_detector.1 "123456" "9999-99999-999" "123456" "case:x"
    (by decide) (by decide)).mpr (Or.inr (by with_unfolding_all rfl))

/-- C7 (counterexample): a fetched response whose body contains a CAPTCHA
indicator but whose status is 403 is reported as `REMOTE_HTTP_403`, not
`CAPTCHA_DETECTED` — the 403 branch of `_detect_captcha_or_block` runs before
the body scan, so the outcome is not independent of the status code. -/
theorem C7_counterexample :
    captchaFlagged "please verify: captcha" = true ∧
    fetch_content (fun _ => .response "please verify: captcha" 403) =
      ⟨none, some 403, some "REMOTE_HTTP_403"⟩ := ⟨by decide, by decide⟩

/-- C7 (amended): for every fetched response whose status is not 403 and whose
body contains one of the CAPTCHA/WAF indicator substrings (case-insensitive),
the fetch outcome — regardless of which of the three attempts produced the
response, the earlier ones having raised — is an error of kind
`CAPTCHA_DETECTED` with no document body; a 403 status takes precedence. -/
theorem C7_captcha_detection (att : Nat → Attempt) (i : Nat) (text : String) (status : Nat)
    (hi : i ≤ 2) (hexc : ∀ k, k < i → (att k).isExc = true)
    (hresp : att i = .response text status) (hst : status ≠ 403)
    (hcap : captchaFlagged text = true) :
    fetch_content att = ⟨none, some status, some "CAPTCHA_DETECTED"⟩ := by
  have step : ∀ (j fuel : Nat), att j = .response text status →
      fetchAttempts att 2 j (fuel + 1) = ⟨none, some status, some "CAPTCHA_DETECTED"⟩ := by
    intro j fuel hj
    unfold fetchAttempts
    rw [hj]
    exact processHttpResponse_captcha text status hst hcap
  have skip : ∀ (j fuel : Nat), (att j).isExc = true → j ≠ 2 →
      fetchAttempts att 2 j (fuel + 1) = fetchAttempts att 2 (j + 1) fuel := by
    intro j fuel hj hj2
    conv_lhs => rw [fetchAttempts]
    cases ha : att j with
    | response t s => rw [ha] at hj; simp [Attempt.isExc] at hj
    | timeoutExc => simp [hj2]
    | requestExc => simp [hj2]
  unfold fetch_content
  interval_cases i
  · exact step 0 2 hresp
  · rw [skip 0 2 (hexc 0 (by omega)) (by omega)]
    exact step 1 1 hresp
  · rw [skip 0 2 (hexc 0 (by omega)) (by omega), skip 1 1 (hexc 1 (by omega)) (by omega)]
    exact step 2 0 hresp

theorem C7_captcha_detection_witness :
    fetch_content (fun _ => .response "x captcha y" 404) =
      ⟨none, some 404, some "CAPTCHA_DETECTED"⟩ :=
  C7_captcha_detection (fun _ => .response "x captcha y" 404) 0 "x captcha y" 404
    (by omega) (fun k hk => absurd hk (by omega)) rfl (by omega) (by decide)

/-- C8: under strict execution mode the content validator rejects (returns
true for) any document with fewer than 3 of the 5 essential field labels, or
no price-shape regex match, or a body shorter than 10,000 characters. -/
theorem C8_strict_error_page (content : String)
    (h : countPresent required_fields_strict content < 3 ∨ foundPriceCount content = 0 ∨
      content.length < 10000) :
    is_onbid_error_page true content = true := by
  unfold is_onbid_error_page
  split_ifs with h1 h2 h3 h4 h5 h6 <;> try rfl
  exfalso
  simp only [Bool.true_and, decide_eq_true_eq] at h2 h3 h4
  rcases h with h | h | h
  · exact h2 h
  · exact h3 h
  · exact h4 h

theorem C8_strict_error_page_witness : is_onbid_error_page true "" = true :=
  C8_strict_error_page "" (Or.inl (by decide))

/-- C9: the result of `parse_onbid_case` is independent of the response-cache
contents — the orchestrator never reads that cache (`load_from_cache` is never
invoked, and the raw-archive existence check of step 2 does not alter control
flow), so two runs differing only in the response-cache state return the same
structured result. -/
theorem C9_response_cache_independent (att : String → Nat → Attempt)
    (ra : String → Option (Option RawData)) (rc1 rc2 : String → Option String)
    (rp : String → Option RealProp) (pr : String → ParsedRealContent) (dl st : Bool)
    (req : OnbidParseRequest) (rid : String) :
    parse_onbid_case ⟨att, ra, rc1, rp, pr, dl, st⟩ req rid =
      parse_onbid_case ⟨att, ra, rc2, rp, pr, dl, st⟩ req rid := by
  unfold parse_onbid_case parse_onbid_case_with
  simp only [parseMain_congr ⟨att, ra, rc1, rp, pr, dl, st⟩ ⟨att, ra, rc2, rp, pr, dl, st⟩
    rfl rfl rfl rfl rfl req rid]

/-- C10: in every finalized (non-short-circuited) response the error codes
follow the attachment-first precedence: attachment state `NONE` forces
`ATTACHMENT_NONE` (even with fewer than 8 extracted keys), `DOWNLOAD_FAIL`
forces `ATTACHMENT_DOWNLOAD_FAIL`, and `PARSE_EMPTY` is reported only when
the attachment state is `READY` and fewer than 8 keys were extracted. -/
theorem C10_error_code_precedence (env : Env) (rid : String) (requested : Option String)
    (ck : String) (cno : Option String) (hint : String) (content : Option String)
    (hstat : Option Nat) (lurl : Option String) (r : OnbidParseResponse)
    (h : finalize env rid requested ck cno hint content hstat lurl = .ok r) :
    (r.attachment_state = "NONE" → r.error_code = some "ATTACHMENT_NONE") ∧
    (r.attachment_state = "DOWNLOAD_FAIL" → r.error_code = some "ATTACHMENT_DOWNLOAD_FAIL") ∧
    (r.error_code = some "PARSE_EMPTY" → r.attachment_state = "READY" ∧ r.extracted_keys < 8) := by
  simp only [finalize] at h
  rcases hex : extract_structured_data env.strict env.realProps env.parseReal (content.getD "")
    with e | ex
  · rw [hex] at h
    simp at h
  · rw [hex] at h
    simp only [Except.ok.injEq] at h
    subst h
    simp only
    have hspec := errorChain_spec
      (if (detect_attachments (content.getD "")).1 = "READY" then
        (download_attachments env.downloadFails ck (detect_attachments (content.getD "")).2)
       else ((detect_attachments (content.getD "")).1, ([] : List OnbidAttachment))).1
      (count_extracted_keys ex)
      (if detect_mismatch (requested.getD "")
          (if truthy content then reMatchCasePattern (content.getD "") else none)
          (if truthy content then
            (searchLitSepDigits "cltrNo".data cltrSepChars (content.getD "").data).map
              (fun d => (⟨d⟩ : String))
           else none) ck then some "입력 사건과 응답 사건이 다릅니다" else none)
    refine ⟨hspec.1, hspec.2.1, fun hpe => ?_⟩
    have h3 := hspec.2.2 hpe
    constructor
    · by_cases hready : (detect_attachments (content.getD "")).1 = "READY"
      · rcases download_attachments_fst env.downloadFails ck
          (detect_attachments (content.getD "")).2 with hA | hA | hA
        · exact absurd (by rw [hready]; simp [hA]) h3.1
        · exact absurd (by rw [hready]; simp [hA]) h3.2.1
        · rw [hready]; simp [hA]
      · rcases detect_attachments_fst (content.getD "") with hA | hA
        · exact absurd (by simp [hready, hA]) h3.1
        · exact absurd hA hready
    · exact h3.2.2

theorem C10_error_code_precedence_witness : respC10.error_code = some "ATTACHMENT_NONE" := by
  have hok : finalize envPlain "w10" none "k" none "url" none none none = .ok respC10 := by
    with_unfolding_all rfl
  exact (C10_error_code_precedence envPlain "w10" none "k" none "url" none none none
    respC10 hok).1 (by with_unfolding_all rfl)

end Onbid
